import Mathlib

/-! orca_base: supervisory control core of the Orca ROV.

A shallow embedding of `src/orca_base/src/orca_base.cpp`.

* C++ `double` / `float` values are idealised as exact rationals (`ℚ`).
* The ROS publishers owned by the node are modelled by the field `published`,
  the sequence of messages handed to `publish`, oldest first.
* `sensor_msgs::Joy` carries `float32[] axes` and `int32[] buttons`; a button is
  pressed when its entry is nonzero, exactly as in `if (joy_msg->buttons[i])`.
-/

namespace orca_base

/-! ## Constants (the `#define`s at the top of the source) -/

def JOY_AXIS_YAW : Nat := 0
def JOY_AXIS_FORWARD : Nat := 1
def JOY_AXIS_STRAFE : Nat := 3
def JOY_AXIS_VERTICAL : Nat := 4
def JOY_AXIS_YAW_TRIM : Nat := 6
def JOY_AXIS_VERTICAL_TRIM : Nat := 7

def JOY_BUTTON_DISARM : Nat := 6
def JOY_BUTTON_ARM : Nat := 7
def JOY_BUTTON_MANUAL : Nat := 0
def JOY_BUTTON_STABILIZE : Nat := 2
def JOY_BUTTON_DEPTH_HOLD : Nat := 3
def JOY_BUTTON_SURFACE : Nat := 1
def JOY_CAMERA_TILT_DOWN : Nat := 4
def JOY_CAMERA_TILT_UP : Nat := 5
def JOY_LIGHTS_BRIGHT : Nat := 9
def JOY_LIGHTS_DIM : Nat := 10

def PI : ℚ := 314159 / 100000
def INC_YAW : ℚ := PI / 36
def INC_DEPTH : ℚ := 1 / 10
def INC_TILT : ℚ := 2 / 10
def INC_LIGHTS : ℚ := 2 / 10

def INPUT_DEAD_BAND : ℚ := 5 / 100
def EFFORT_DEAD_BAND : ℚ := 1 / 100

/-! ## Helpers declared in `orca_base/orca_util.h` -/

/-- Modelled from the spec: `clamp` of `orca_base/orca_util.h`, whose body is not part of
the sources at hand.  The spec says every mixed value "is clamped to [-1.0, 1.0]" and that
a value which "exceeds 1.0 or is below -1.0 is output as exactly 1.0 or -1.0". -/
def clamp (v lo hi : ℚ) : ℚ :=
  if v > hi then hi else if v < lo then lo else v

/-- Modelled from the spec: `dead_band` of `orca_base/orca_util.h`, whose body is not part
of the sources at hand.  The spec says values "with |value| below the dead-band threshold"
map to exactly 0 and "at or above threshold it passes through unchanged". -/
def dead_band (v d : ℚ) : ℚ :=
  if |v| < d then 0 else v

/-! ## Data model -/

/-- The operating modes, `enum class Mode` as used by the source. -/
inductive Mode where
  | disarmed
  | manual
  | stabilize
  | depth_hold
  deriving DecidableEq, Repr

/-- One message handed to a ROS publisher; the constructor is named after the topic. -/
inductive Msg where
  | thruster (effort : List ℚ)
  | camera_tilt (tilt : ℚ)
  | lights (brightness : ℚ)
  | yaw_pid_enable (data : Bool)
  | yaw_state (data : ℚ)
  | yaw_setpoint (data : ℚ)
  | depth_pid_enable (data : Bool)
  | depth_state (data : ℚ)
  | depth_setpoint (data : ℚ)
  deriving DecidableEq, Repr

/-- The gamepad sample `sensor_msgs::Joy`. -/
structure Joy where
  axes : List ℚ
  buttons : List Int
  deriving DecidableEq, Repr

/-- The value `joy_msg->axes[i]`; an index past the end (undefined in C++) reads 0. -/
def Joy.axis (joy_msg : Joy) (i : Nat) : ℚ := joy_msg.axes.getD i 0

/-- The test `if (joy_msg->buttons[i])`: the entry is nonzero; an index past the end
(undefined in C++) reads as not pressed. -/
def Joy.button (joy_msg : Joy) (i : Nat) : Bool := joy_msg.buttons.getD i 0 != 0

/-- The mutable members of `class OrcaBase`, plus the traffic of its publishers. -/
structure OrcaBase where
  mode_ : Mode
  depth_state_ : ℚ
  depth_setpoint_ : ℚ
  depth_trim_button_previous_ : Bool
  yaw_state_ : ℚ
  yaw_setpoint_ : ℚ
  yaw_trim_button_previous_ : Bool
  forward_effort_ : ℚ
  yaw_effort_ : ℚ
  strafe_effort_ : ℚ
  vertical_effort_ : ℚ
  tilt_ : ℚ
  tilt_trim_button_previous_ : Bool
  lights_ : ℚ
  lights_trim_button_previous_ : Bool
  published : List Msg
  deriving DecidableEq, Repr

/-- Hand one message to its publisher. -/
def OrcaBase.publish (s : OrcaBase) (m : Msg) : OrcaBase :=
  { s with published := s.published ++ [m] }

/-- The constructor `OrcaBase::OrcaBase`.  Its initialiser list sets the mode, the four
efforts, tilt, lights and the tilt/lights latches; the members it leaves uninitialised
(sensor cache, setpoints, yaw/depth trim latches) are parameters here. -/
def OrcaBase.init (depth_state depth_setpoint yaw_state yaw_setpoint : ℚ)
    (depth_trim_button_previous yaw_trim_button_previous : Bool) : OrcaBase :=
  { mode_ := Mode.disarmed
    depth_state_ := depth_state
    depth_setpoint_ := depth_setpoint
    depth_trim_button_previous_ := depth_trim_button_previous
    yaw_state_ := yaw_state
    yaw_setpoint_ := yaw_setpoint
    yaw_trim_button_previous_ := yaw_trim_button_previous
    forward_effort_ := 0
    yaw_effort_ := 0
    strafe_effort_ := 0
    vertical_effort_ := 0
    tilt_ := 0
    tilt_trim_button_previous_ := false
    lights_ := 0
    lights_trim_button_previous_ := false
    published := [] }

/-! ## Callbacks -/

/-- `OrcaBase::baroCallback`: cache the new depth reading. -/
def baroCallback (s : OrcaBase) (depth : ℚ) : OrcaBase :=
  { s with depth_state_ := depth }

/-- `OrcaBase::imuCallback`: cache the new yaw reading.  The argument is the yaw that
`tf::Matrix3x3(q).getRPY` extracts from the orientation quaternion. -/
def imuCallback (s : OrcaBase) (yaw : ℚ) : OrcaBase :=
  { s with yaw_state_ := yaw }

/-- `OrcaBase::yawControlEffortCallback`. -/
def yawControlEffortCallback (s : OrcaBase) (data : ℚ) : OrcaBase :=
  if s.mode_ = Mode.stabilize ∨ s.mode_ = Mode.depth_hold then
    { s with yaw_effort_ := dead_band data EFFORT_DEAD_BAND }
  else s

/-- `OrcaBase::depthControlEffortCallback`. -/
def depthControlEffortCallback (s : OrcaBase) (data : ℚ) : OrcaBase :=
  if s.mode_ = Mode.depth_hold then
    { s with vertical_effort_ := dead_band data EFFORT_DEAD_BAND }
  else s

/-- `OrcaBase::publishYawSetpoint`. -/
def publishYawSetpoint (s : OrcaBase) : OrcaBase :=
  s.publish (Msg.yaw_setpoint s.yaw_setpoint_)

/-- `OrcaBase::publishDepthSetpoint`. -/
def publishDepthSetpoint (s : OrcaBase) : OrcaBase :=
  s.publish (Msg.depth_setpoint s.depth_setpoint_)

/-- `OrcaBase::publishCameraTilt`. -/
def publishCameraTilt (s : OrcaBase) : OrcaBase :=
  s.publish (Msg.camera_tilt s.tilt_)

/-- `OrcaBase::publishLights`. -/
def publishLights (s : OrcaBase) : OrcaBase :=
  s.publish (Msg.lights s.lights_)

/-- First block of `OrcaBase::setMode`: the depth pid controller. -/
def setMode_depth (s : OrcaBase) (mode : Mode) (depth_setpoint : ℚ) : OrcaBase :=
  if mode = Mode.depth_hold then
    let s1 := s.publish (Msg.depth_pid_enable true)
    let s2 := publishDepthSetpoint { s1 with depth_setpoint_ := depth_setpoint }
    { s2 with depth_trim_button_previous_ := false }
  else
    s.publish (Msg.depth_pid_enable false)

/-- Second block of `OrcaBase::setMode`: the yaw pid controller. -/
def setMode_yaw (s : OrcaBase) (mode : Mode) : OrcaBase :=
  if mode = Mode.stabilize ∨ mode = Mode.depth_hold then
    let s1 := s.publish (Msg.yaw_pid_enable true)
    let s2 := publishYawSetpoint { s1 with yaw_setpoint_ := s1.yaw_state_ }
    { s2 with yaw_trim_button_previous_ := false }
  else
    s.publish (Msg.yaw_pid_enable false)

/-- Third block of `OrcaBase::setMode`: zero the efforts when disarming. -/
def setMode_efforts (s : OrcaBase) (mode : Mode) : OrcaBase :=
  if mode = Mode.disarmed then
    { s with forward_effort_ := 0, yaw_effort_ := 0, strafe_effort_ := 0,
             vertical_effort_ := 0 }
  else s

/-- `OrcaBase::setMode`: change operation mode.  The C++ default argument
`depth_setpoint = 0.0` is passed explicitly by the callers below. -/
def setMode (s : OrcaBase) (mode : Mode) (depth_setpoint : ℚ) : OrcaBase :=
  let s0 := { s with mode_ := mode }
  let s1 := setMode_depth s0 mode depth_setpoint
  let s2 := setMode_yaw s1 mode
  setMode_efforts s2 mode

/-- `joyCallback`, block "Arm/disarm". -/
def joy_arm_disarm (s : OrcaBase) (joy_msg : Joy) : OrcaBase :=
  if joy_msg.button JOY_BUTTON_DISARM then setMode s Mode.disarmed 0
  else if joy_msg.button JOY_BUTTON_ARM then setMode s Mode.manual 0
  else s

/-- `joyCallback`, block "Select a mode". -/
def joy_select_mode (s : OrcaBase) (joy_msg : Joy) : OrcaBase :=
  if joy_msg.button JOY_BUTTON_MANUAL then setMode s Mode.manual 0
  else if joy_msg.button JOY_BUTTON_STABILIZE then setMode s Mode.stabilize 0
  else if joy_msg.button JOY_BUTTON_DEPTH_HOLD then setMode s Mode.depth_hold s.depth_state_
  else if joy_msg.button JOY_BUTTON_SURFACE then setMode s Mode.depth_hold 10
  else s

/-- `joyCallback`, block "Yaw trim". -/
def joy_yaw_trim (s : OrcaBase) (joy_msg : Joy) : OrcaBase :=
  if joy_msg.axis JOY_AXIS_YAW_TRIM ≠ 0 ∧ s.yaw_trim_button_previous_ = false then
    let s1 :=
      if s.mode_ = Mode.stabilize ∨ s.mode_ = Mode.depth_hold then
        publishYawSetpoint
          { s with yaw_setpoint_ :=
              if joy_msg.axis JOY_AXIS_YAW_TRIM > 0 then s.yaw_setpoint_ + INC_YAW
              else s.yaw_setpoint_ - INC_YAW }
      else s
    { s1 with yaw_trim_button_previous_ := true }
  else
    { s with yaw_trim_button_previous_ := false }

/-- `joyCallback`, block "Depth trim". -/
def joy_depth_trim (s : OrcaBase) (joy_msg : Joy) : OrcaBase :=
  if joy_msg.axis JOY_AXIS_VERTICAL_TRIM ≠ 0 ∧ s.depth_trim_button_previous_ = false then
    let s1 :=
      if s.mode_ = Mode.depth_hold then
        publishDepthSetpoint
          { s with depth_setpoint_ :=
              if joy_msg.axis JOY_AXIS_VERTICAL_TRIM > 0 then s.depth_setpoint_ + INC_DEPTH
              else s.depth_setpoint_ - INC_DEPTH }
      else s
    { s1 with depth_trim_button_previous_ := true }
  else
    { s with depth_trim_button_previous_ := false }

/-- `joyCallback`, block "Camera tilt". -/
def joy_camera_tilt (s : OrcaBase) (joy_msg : Joy) : OrcaBase :=
  if s.tilt_trim_button_previous_ = false then
    if joy_msg.button JOY_CAMERA_TILT_UP then
      let s1 := publishCameraTilt { s with tilt_ := clamp (s.tilt_ + INC_TILT) (-1) 1 }
      { s1 with tilt_trim_button_previous_ := true }
    else if joy_msg.button JOY_CAMERA_TILT_DOWN then
      let s1 := publishCameraTilt { s with tilt_ := clamp (s.tilt_ - INC_TILT) (-1) 1 }
      { s1 with tilt_trim_button_previous_ := true }
    else
      { s with tilt_trim_button_previous_ := false }
  else s

/-- `joyCallback`, block "Lights". -/
def joy_lights (s : OrcaBase) (joy_msg : Joy) : OrcaBase :=
  if s.lights_trim_button_previous_ = false then
    if joy_msg.button JOY_LIGHTS_BRIGHT then
      let s1 := publishLights { s with lights_ := clamp (s.lights_ + INC_LIGHTS) 0 1 }
      { s1 with lights_trim_button_previous_ := true }
    else if joy_msg.button JOY_LIGHTS_DIM then
      let s1 := publishLights { s with lights_ := clamp (s.lights_ - INC_LIGHTS) 0 1 }
      { s1 with lights_trim_button_previous_ := true }
    else
      { s with lights_trim_button_previous_ := false }
  else s

/-- `joyCallback`, block "Respond to thruster controls". -/
def joy_thrusters (s : OrcaBase) (joy_msg : Joy) : OrcaBase :=
  let s1 := { s with forward_effort_ := dead_band (joy_msg.axis JOY_AXIS_FORWARD) INPUT_DEAD_BAND }
  let s2 :=
    if s1.mode_ = Mode.manual then
      { s1 with yaw_effort_ := dead_band (joy_msg.axis JOY_AXIS_YAW) INPUT_DEAD_BAND }
    else s1
  let s3 := { s2 with strafe_effort_ := dead_band (joy_msg.axis JOY_AXIS_STRAFE) INPUT_DEAD_BAND }
  if s3.mode_ = Mode.manual ∨ s3.mode_ = Mode.stabilize then
    { s3 with vertical_effort_ := dead_band (joy_msg.axis JOY_AXIS_VERTICAL) INPUT_DEAD_BAND }
  else s3

/-- `OrcaBase::joyCallback`: new input from the gamepad. -/
def joyCallback (s : OrcaBase) (joy_msg : Joy) : OrcaBase :=
  let s1 := joy_arm_disarm s joy_msg
  -- If we're disarmed, ignore everything else
  if s1.mode_ = Mode.disarmed then s1
  else
    let s2 := joy_select_mode s1 joy_msg
    let s3 := joy_yaw_trim s2 joy_msg
    let s4 := joy_depth_trim s3 joy_msg
    let s5 := joy_camera_tilt s4 joy_msg
    let s6 := joy_lights s5 joy_msg
    joy_thrusters s6 joy_msg

/-- The thruster message built by `OrcaBase::SpinOnce`, six efforts in URDF order. -/
def thruster_msg (s : OrcaBase) : List ℚ :=
  [ clamp (s.forward_effort_ + s.strafe_effort_ + s.yaw_effort_) (-1) 1,
    clamp (s.forward_effort_ - s.strafe_effort_ - s.yaw_effort_) (-1) 1,
    clamp (s.forward_effort_ - s.strafe_effort_ + s.yaw_effort_) (-1) 1,
    clamp (s.forward_effort_ + s.strafe_effort_ - s.yaw_effort_) (-1) 1,
    clamp (s.vertical_effort_) (-1) 1,
    clamp (-s.vertical_effort_) (-1) 1 ]

/-- `OrcaBase::SpinOnce`: called at 100Hz; publish various messages. -/
def SpinOnce (s : OrcaBase) : OrcaBase :=
  let s1 :=
    if s.mode_ = Mode.stabilize ∨ s.mode_ = Mode.depth_hold then
      s.publish (Msg.yaw_state s.yaw_state_)
    else s
  let s2 :=
    if s1.mode_ = Mode.depth_hold then s1.publish (Msg.depth_state s1.depth_state_)
    else s1
  s2.publish (Msg.thruster (thruster_msg s2))

/-! ## Odometry (`OrcaBase::publishOdom`) -/

def SIGMA : ℚ := 1056 / 10
def ROV_AREA : ℚ := 859 / 10000
def ROV_DRAG_COEF : ℚ := 9 / 10
def MAX_THRUST_XY : ℚ := 14

/-- `publishOdom`: `double thrust_force_x = MAX_THRUST_XY * strafe_effort_`. -/
def thrust_force_x (s : OrcaBase) : ℚ := MAX_THRUST_XY * s.strafe_effort_

/-- `publishOdom`: `double thrust_force_y = MAX_THRUST_XY * forward_effort_`. -/
def thrust_force_y (s : OrcaBase) : ℚ := MAX_THRUST_XY * s.forward_effort_

/-- `publishOdom`: the argument handed to `sqrt` for `twist.linear.x`. -/
def linear_x_sqrt_arg (s : OrcaBase) : ℚ :=
  thrust_force_x s * 2 / SIGMA / ROV_AREA / ROV_DRAG_COEF

/-- `publishOdom`: the argument handed to `sqrt` for `twist.linear.y`. -/
def linear_y_sqrt_arg (s : OrcaBase) : ℚ :=
  thrust_force_y s * 2 / SIGMA / ROV_AREA / ROV_DRAG_COEF

/-- The library `sqrt` over exact numbers: `r` is the result for the argument `x` when `x`
is not negative and `r` is its non-negative root.  For a negative argument `sqrt` returns
NaN, which is no number, so nothing is related to it. -/
def IsSqrt (x : ℚ) (r : ℝ) : Prop := 0 ≤ x ∧ 0 ≤ r ∧ r * r = (x : ℝ)

/-- `publishOdom`: `r` is the number stored in `odom_msg_.twist.twist.linear.x`. -/
def twist_linear_x (s : OrcaBase) (r : ℝ) : Prop := IsSqrt (linear_x_sqrt_arg s) r

/-- `publishOdom`: `r` is the number stored in `odom_msg_.twist.twist.linear.y`. -/
def twist_linear_y (s : OrcaBase) (r : ℝ) : Prop := IsSqrt (linear_y_sqrt_arg s) r

/-! ## The node as a transition system -/

/-- What the ROS executor can deliver to the node. -/
inductive Event where
  | baro (depth : ℚ)
  | imu (yaw : ℚ)
  | joy (joy_msg : Joy)
  | yaw_control_effort (data : ℚ)
  | depth_control_effort (data : ℚ)
  | spin
  deriving DecidableEq, Repr

/-- Deliver one event to its callback. -/
def step (s : OrcaBase) : Event → OrcaBase
  | Event.baro depth => baroCallback s depth
  | Event.imu yaw => imuCallback s yaw
  | Event.joy joy_msg => joyCallback s joy_msg
  | Event.yaw_control_effort data => yawControlEffortCallback s data
  | Event.depth_control_effort data => depthControlEffortCallback s data
  | Event.spin => SpinOnce s

/-- Deliver a sequence of events, first to last. -/
def run (s : OrcaBase) (events : List Event) : OrcaBase :=
  events.foldl step s

/-- Deliver the same gamepad sample `n` times in a row. -/
def hold (s : OrcaBase) (joy_msg : Joy) : Nat → OrcaBase
  | 0 => s
  | n + 1 => hold (joyCallback s joy_msg) joy_msg n

/-! ## Sample inputs -/

/-- A gamepad sample with all eight axes centred and none of the eleven buttons pressed. -/
def Joy.neutral : Joy :=
  { axes := List.replicate 8 0, buttons := List.replicate 11 0 }

/-- A gamepad sample with button `i` pressed and everything else neutral. -/
def Joy.press (i : Nat) : Joy :=
  { Joy.neutral with buttons := Joy.neutral.buttons.set i 1 }

/-- A gamepad sample with axis `i` held at `v` and everything else neutral. -/
def Joy.push (i : Nat) (v : ℚ) : Joy :=
  { Joy.neutral with axes := Joy.neutral.axes.set i v }

/-- The node right after construction, with the uninitialised members read as zero. -/
def boot : OrcaBase := OrcaBase.init 0 0 0 0 false false

/-- A state in manual mode under way: some thrust on every axis. -/
def cruising : OrcaBase :=
  { boot with mode_ := Mode.manual, forward_effort_ := 4 / 5, yaw_effort_ := -1 / 4,
              strafe_effort_ := 1 / 2, vertical_effort_ := 1 / 10 }

/-- A short mission: arm, push the forward stick, tick, receive controller efforts,
then disarm. -/
def mission : List Event :=
  [ Event.joy (Joy.press JOY_BUTTON_ARM),
    Event.joy (Joy.push JOY_AXIS_FORWARD (4 / 5)),
    Event.spin,
    Event.yaw_control_effort (1 / 2),
    Event.depth_control_effort (1 / 2),
    Event.joy (Joy.press JOY_BUTTON_DISARM) ]

/-- A state in depth-hold mode. -/
def holding : OrcaBase := { boot with mode_ := Mode.depth_hold }

/-- A gamepad sample with the manual (A) and stabilize (X) buttons both pressed. -/
def manual_and_stabilize : Joy :=
  { Joy.neutral with buttons := [1, 0, 1, 0, 0, 0, 0, 0, 0, 0, 0] }

/-- A state in stabilize mode. -/
def stabilizing : OrcaBase := { boot with mode_ := Mode.stabilize }

/-- A state with the camera tilted all the way up and the lights off. -/
def tilted_up : OrcaBase := { cruising with tilt_ := 1, lights_ := 0 }

/-! ## Predicates and observers used by the theorems -/

/-- While disarmed, all four efforts are zero. -/
def DisarmedNoThrust (s : OrcaBase) : Prop :=
  s.mode_ = Mode.disarmed →
    s.forward_effort_ = 0 ∧ s.strafe_effort_ = 0 ∧ s.yaw_effort_ = 0 ∧ s.vertical_effort_ = 0

/-- The saturation law relating a mixed value `raw` to the channel value `out`: `out` is
`raw` inside [-1, 1], exactly 1 above, exactly -1 below, and in any case within [-1, 1]. -/
def Saturates (raw out : ℚ) : Prop :=
  (-1 ≤ raw ∧ raw ≤ 1 → out = raw) ∧ (1 < raw → out = 1) ∧ (raw < -1 → out = -1) ∧
    -1 ≤ out ∧ out ≤ 1

/-- The depth-controller enable flags among some messages, in order. -/
def depth_pid_enable_flags : List Msg → List Bool
  | [] => []
  | Msg.depth_pid_enable b :: rest => b :: depth_pid_enable_flags rest
  | _ :: rest => depth_pid_enable_flags rest

/-- The yaw-controller enable flags among some messages, in order. -/
def yaw_pid_enable_flags : List Msg → List Bool
  | [] => []
  | Msg.yaw_pid_enable b :: rest => b :: yaw_pid_enable_flags rest
  | _ :: rest => yaw_pid_enable_flags rest

/-- A camera-tilt command carries a tilt in [-1, 1] and a lights command a brightness in
[0, 1]; other messages are not constrained here. -/
def Msg.InRange : Msg → Prop
  | Msg.camera_tilt tilt => -1 ≤ tilt ∧ tilt ≤ 1
  | Msg.lights brightness => 0 ≤ brightness ∧ brightness ≤ 1
  | _ => True

/-- Camera tilt in [-1, 1], lights in [0, 1], and every published message in range. -/
def ActuatorsInRange (s : OrcaBase) : Prop :=
  -1 ≤ s.tilt_ ∧ s.tilt_ ≤ 1 ∧ 0 ≤ s.lights_ ∧ s.lights_ ≤ 1 ∧
    ∀ m ∈ s.published, m.InRange

/-- The states the node can be in: the constructed node, whatever its uninitialised
members hold, after any sequence of events. -/
def Reachable (s : OrcaBase) : Prop :=
  ∃ (depth_state depth_setpoint yaw_state yaw_setpoint : ℚ) (depth_latch yaw_latch : Bool)
    (events : List Event),
    s = run (OrcaBase.init depth_state depth_setpoint yaw_state yaw_setpoint depth_latch
      yaw_latch) events

/-! ## Basic facts about `setMode` and the blocks of `joyCallback` -/

theorem setMode_disarmed_eq (s : OrcaBase) (d : ℚ) :
    setMode s Mode.disarmed d =
      { s with mode_ := Mode.disarmed, forward_effort_ := 0, yaw_effort_ := 0,
               strafe_effort_ := 0, vertical_effort_ := 0,
               published := s.published ++
                 [Msg.depth_pid_enable false, Msg.yaw_pid_enable false] } := by
  simp [setMode, setMode_depth, setMode_yaw, setMode_efforts, OrcaBase.publish]

theorem setMode_mode (s : OrcaBase) (m : Mode) (d : ℚ) : (setMode s m d).mode_ = m := by
  simp only [setMode, setMode_depth, setMode_yaw, setMode_efforts, OrcaBase.publish,
    publishDepthSetpoint, publishYawSetpoint]
  split_ifs <;> rfl

theorem joy_yaw_trim_mode (s : OrcaBase) (j : Joy) : (joy_yaw_trim s j).mode_ = s.mode_ := by
  simp only [joy_yaw_trim, publishYawSetpoint, OrcaBase.publish]
  split_ifs <;> rfl

theorem joy_depth_trim_mode (s : OrcaBase) (j : Joy) :
    (joy_depth_trim s j).mode_ = s.mode_ := by
  simp only [joy_depth_trim, publishDepthSetpoint, OrcaBase.publish]
  split_ifs <;> rfl

theorem joy_camera_tilt_mode (s : OrcaBase) (j : Joy) :
    (joy_camera_tilt s j).mode_ = s.mode_ := by
  simp only [joy_camera_tilt, publishCameraTilt, OrcaBase.publish]
  split_ifs <;> rfl

theorem joy_lights_mode (s : OrcaBase) (j : Joy) : (joy_lights s j).mode_ = s.mode_ := by
  simp only [joy_lights, publishLights, OrcaBase.publish]
  split_ifs <;> rfl

theorem joy_thrusters_mode (s : OrcaBase) (j : Joy) : (joy_thrusters s j).mode_ = s.mode_ := by
  simp only [joy_thrusters]
  split_ifs <;> rfl

/-- The mode after the "Select a mode" block, read off the buttons. -/
theorem joy_select_mode_mode (s : OrcaBase) (j : Joy) :
    (joy_select_mode s j).mode_ =
      if j.button JOY_BUTTON_MANUAL then Mode.manual
      else if j.button JOY_BUTTON_STABILIZE then Mode.stabilize
      else if j.button JOY_BUTTON_DEPTH_HOLD then Mode.depth_hold
      else if j.button JOY_BUTTON_SURFACE then Mode.depth_hold
      else s.mode_ := by
  simp only [joy_select_mode]
  split_ifs <;> simp [setMode_mode]

/-- The mode after a whole input sample that is processed to the end. -/
theorem joyCallback_mode_of_armed (s : OrcaBase) (j : Joy)
    (h : (joy_arm_disarm s j).mode_ ≠ Mode.disarmed) :
    (joyCallback s j).mode_ = (joy_select_mode (joy_arm_disarm s j) j).mode_ := by
  simp only [joyCallback, if_neg h, joy_thrusters_mode, joy_lights_mode, joy_camera_tilt_mode,
    joy_depth_trim_mode, joy_yaw_trim_mode]

/-- A sample with the disarm button pressed is `setMode(Mode::disarmed)` and nothing else. -/
theorem joyCallback_disarm_eq (s : OrcaBase) (j : Joy)
    (h : j.button JOY_BUTTON_DISARM = true) :
    joyCallback s j =
      { s with mode_ := Mode.disarmed, forward_effort_ := 0, yaw_effort_ := 0,
               strafe_effort_ := 0, vertical_effort_ := 0,
               published := s.published ++
                 [Msg.depth_pid_enable false, Msg.yaw_pid_enable false] } := by
  simp [joyCallback, joy_arm_disarm, h, setMode_disarmed_eq]

/-! ## C1: disarm -/

/-- C1. A gamepad sample whose disarm button is pressed leaves the node disarmed with the
forward, strafe, yaw and vertical efforts all 0, whatever the state before and whatever
else the sample carries; the rest of the sample is skipped, so both setpoints, camera
tilt, lights and the four trim latches keep their values, and the only traffic is the
two controller-disable flags of `setMode`. -/
theorem joyCallback_disarm (s : OrcaBase) (joy_msg : Joy)
    (h : joy_msg.button JOY_BUTTON_DISARM = true) :
    (joyCallback s joy_msg).mode_ = Mode.disarmed ∧
    (joyCallback s joy_msg).forward_effort_ = 0 ∧
    (joyCallback s joy_msg).strafe_effort_ = 0 ∧
    (joyCallback s joy_msg).yaw_effort_ = 0 ∧
    (joyCallback s joy_msg).vertical_effort_ = 0 ∧
    (joyCallback s joy_msg).yaw_setpoint_ = s.yaw_setpoint_ ∧
    (joyCallback s joy_msg).depth_setpoint_ = s.depth_setpoint_ ∧
    (joyCallback s joy_msg).tilt_ = s.tilt_ ∧
    (joyCallback s joy_msg).lights_ = s.lights_ ∧
    (joyCallback s joy_msg).yaw_trim_button_previous_ = s.yaw_trim_button_previous_ ∧
    (joyCallback s joy_msg).depth_trim_button_previous_ = s.depth_trim_button_previous_ ∧
    (joyCallback s joy_msg).tilt_trim_button_previous_ = s.tilt_trim_button_previous_ ∧
    (joyCallback s joy_msg).lights_trim_button_previous_ = s.lights_trim_button_previous_ ∧
    (joyCallback s joy_msg).published =
      s.published ++ [Msg.depth_pid_enable false, Msg.yaw_pid_enable false] := by
  rw [joyCallback_disarm_eq s joy_msg h]
  simp

/-- The disarm sample of C1 on a vehicle under way: disarmed, forward effort 0. -/
theorem joyCallback_disarm_witness :
    (Joy.press JOY_BUTTON_DISARM).button JOY_BUTTON_DISARM = true ∧
    (joyCallback cruising (Joy.press JOY_BUTTON_DISARM)).mode_ = Mode.disarmed ∧
    (joyCallback cruising (Joy.press JOY_BUTTON_DISARM)).forward_effort_ = 0 :=
  ⟨by decide,
   (joyCallback_disarm cruising (Joy.press JOY_BUTTON_DISARM) (by decide)).1,
   (joyCallback_disarm cruising (Joy.press JOY_BUTTON_DISARM) (by decide)).2.1⟩

/-! ## C2: disarmed means no thrust -/

theorem DisarmedNoThrust_joyCallback (s : OrcaBase) (j : Joy) (hs : DisarmedNoThrust s) :
    DisarmedNoThrust (joyCallback s j) := by
  intro hm
  by_cases hd : j.button JOY_BUTTON_DISARM = true
  · rw [joyCallback_disarm_eq s j hd]
    simp
  · by_cases ha : j.button JOY_BUTTON_ARM = true
    · have h1 : (joy_arm_disarm s j).mode_ ≠ Mode.disarmed := by
        simp [joy_arm_disarm, hd, ha, setMode_mode]
      rw [joyCallback_mode_of_armed s j h1, joy_select_mode_mode] at hm
      split_ifs at hm
      exact absurd hm h1
    · have e : joy_arm_disarm s j = s := by simp [joy_arm_disarm, hd, ha]
      by_cases h0 : s.mode_ = Mode.disarmed
      · have e2 : joyCallback s j = s := by simp [joyCallback, e, h0]
        rw [e2]; exact hs h0
      · have h1 : (joy_arm_disarm s j).mode_ ≠ Mode.disarmed := by rw [e]; exact h0
        rw [joyCallback_mode_of_armed s j h1, joy_select_mode_mode] at hm
        split_ifs at hm
        exact absurd hm h1

theorem DisarmedNoThrust_step (s : OrcaBase) (e : Event) (hs : DisarmedNoThrust s) :
    DisarmedNoThrust (step s e) := by
  cases e with
  | baro depth => exact hs
  | imu yaw => exact hs
  | joy joy_msg => exact DisarmedNoThrust_joyCallback s joy_msg hs
  | yaw_control_effort data =>
    intro hm
    simp only [step, yawControlEffortCallback] at hm ⊢
    split_ifs at hm ⊢ with h
    · rcases h with h | h <;> simp [h] at hm
    · exact hs hm
  | depth_control_effort data =>
    intro hm
    simp only [step, depthControlEffortCallback] at hm ⊢
    split_ifs at hm ⊢ with h
    · simp [h] at hm
    · exact hs hm
  | spin =>
    intro hm
    have hm0 : s.mode_ = Mode.disarmed := by
      simp only [step, SpinOnce, OrcaBase.publish] at hm
      split_ifs at hm <;> simpa using hm
    simp only [step, SpinOnce, OrcaBase.publish]
    split_ifs <;> exact hs hm0

theorem DisarmedNoThrust_run (events : List Event) (s : OrcaBase) (hs : DisarmedNoThrust s) :
    DisarmedNoThrust (run s events) := by
  induction events generalizing s with
  | nil => exact hs
  | cons e es ih => exact ih (step s e) (DisarmedNoThrust_step s e hs)

theorem SpinOnce_disarmed (s : OrcaBase) (hm : s.mode_ = Mode.disarmed)
    (h : s.forward_effort_ = 0 ∧ s.strafe_effort_ = 0 ∧ s.yaw_effort_ = 0 ∧
      s.vertical_effort_ = 0) :
    (SpinOnce s).published = s.published ++ [Msg.thruster [0, 0, 0, 0, 0, 0]] := by
  obtain ⟨h1, h2, h3, h4⟩ := h
  simp [SpinOnce, OrcaBase.publish, thruster_msg, hm, h1, h2, h3, h4, clamp]
  norm_num

theorem mission_mode : (run boot mission).mode_ = Mode.disarmed := by
  decide

/-- C2. In every state reached from the constructed node (whatever the uninitialised
members hold) by any sequence of depth, orientation, gamepad, yaw-effort, depth-effort
and tick events, disarmed means no thrust: if the mode is disarmed the four efforts are
0, and a tick taken there publishes exactly one message, the thruster command
[0, 0, 0, 0, 0, 0]. -/
theorem disarmed_no_thrust (depth_state depth_setpoint yaw_state yaw_setpoint : ℚ)
    (depth_latch yaw_latch : Bool) (events : List Event)
    (hm : (run (OrcaBase.init depth_state depth_setpoint yaw_state yaw_setpoint
      depth_latch yaw_latch) events).mode_ = Mode.disarmed) :
    (run (OrcaBase.init depth_state depth_setpoint yaw_state yaw_setpoint
      depth_latch yaw_latch) events).forward_effort_ = 0 ∧
    (run (OrcaBase.init depth_state depth_setpoint yaw_state yaw_setpoint
      depth_latch yaw_latch) events).strafe_effort_ = 0 ∧
    (run (OrcaBase.init depth_state depth_setpoint yaw_state yaw_setpoint
      depth_latch yaw_latch) events).yaw_effort_ = 0 ∧
    (run (OrcaBase.init depth_state depth_setpoint yaw_state yaw_setpoint
      depth_latch yaw_latch) events).vertical_effort_ = 0 ∧
    (SpinOnce (run (OrcaBase.init depth_state depth_setpoint yaw_state yaw_setpoint
      depth_latch yaw_latch) events)).published =
      (run (OrcaBase.init depth_state depth_setpoint yaw_state yaw_setpoint
        depth_latch yaw_latch) events).published ++ [Msg.thruster [0, 0, 0, 0, 0, 0]] := by
  have hinit : DisarmedNoThrust (OrcaBase.init depth_state depth_setpoint yaw_state
      yaw_setpoint depth_latch yaw_latch) := by
    intro _; simp [OrcaBase.init]
  have h := DisarmedNoThrust_run events _ hinit hm
  exact ⟨h.1, h.2.1, h.2.2.1, h.2.2.2, SpinOnce_disarmed _ hm h⟩

/-- C2 on the sample mission: it ends disarmed, and the following tick publishes the
all-zero thruster command. -/
theorem disarmed_no_thrust_witness :
    (run boot mission).mode_ = Mode.disarmed ∧
    (SpinOnce (run boot mission)).published =
      (run boot mission).published ++ [Msg.thruster [0, 0, 0, 0, 0, 0]] :=
  ⟨mission_mode, (disarmed_no_thrust 0 0 0 0 false false mission mission_mode).2.2.2.2⟩

/-! ## Sample inputs and frame facts for the blocks of `joyCallback` -/

theorem neutral_button (i : Nat) : Joy.neutral.button i = false := by
  simp only [Joy.button, Joy.neutral, List.getD_eq_getElem?_getD, List.getElem?_replicate]
  split_ifs <;> simp

theorem push_button (a : Nat) (v : ℚ) (i : Nat) : (Joy.push a v).button i = false :=
  neutral_button i

theorem neutral_axis (i : Nat) : Joy.neutral.axis i = 0 := by
  simp only [Joy.axis, Joy.neutral, List.getD_eq_getElem?_getD, List.getElem?_replicate]
  split_ifs <;> simp

theorem press_axis (b : Nat) (i : Nat) : (Joy.press b).axis i = 0 :=
  neutral_axis i

/-- With no arm/disarm or mode-select button pressed and the node armed, a sample goes
straight to the trim, tilt, lights and thruster blocks. -/
theorem joyCallback_no_mode_button (s : OrcaBase) (j : Joy) (hm : s.mode_ ≠ Mode.disarmed)
    (h1 : j.button JOY_BUTTON_DISARM = false) (h2 : j.button JOY_BUTTON_ARM = false)
    (h3 : j.button JOY_BUTTON_MANUAL = false) (h4 : j.button JOY_BUTTON_STABILIZE = false)
    (h5 : j.button JOY_BUTTON_DEPTH_HOLD = false) (h6 : j.button JOY_BUTTON_SURFACE = false) :
    joyCallback s j =
      joy_thrusters (joy_lights (joy_camera_tilt (joy_depth_trim (joy_yaw_trim s j) j) j) j) j := by
  simp [joyCallback, joy_arm_disarm, joy_select_mode, h1, h2, h3, h4, h5, h6, hm]

theorem joy_thrusters_frame (s : OrcaBase) (j : Joy) :
    (joy_thrusters s j).yaw_setpoint_ = s.yaw_setpoint_ ∧
    (joy_thrusters s j).yaw_trim_button_previous_ = s.yaw_trim_button_previous_ ∧
    (joy_thrusters s j).depth_setpoint_ = s.depth_setpoint_ ∧
    (joy_thrusters s j).depth_trim_button_previous_ = s.depth_trim_button_previous_ ∧
    (joy_thrusters s j).tilt_ = s.tilt_ ∧
    (joy_thrusters s j).tilt_trim_button_previous_ = s.tilt_trim_button_previous_ ∧
    (joy_thrusters s j).lights_ = s.lights_ ∧
    (joy_thrusters s j).lights_trim_button_previous_ = s.lights_trim_button_previous_ ∧
    (joy_thrusters s j).published = s.published := by
  simp only [joy_thrusters]
  split_ifs <;> simp

theorem joy_lights_frame (s : OrcaBase) (j : Joy) :
    (joy_lights s j).yaw_setpoint_ = s.yaw_setpoint_ ∧
    (joy_lights s j).yaw_trim_button_previous_ = s.yaw_trim_button_previous_ ∧
    (joy_lights s j).depth_setpoint_ = s.depth_setpoint_ ∧
    (joy_lights s j).depth_trim_button_previous_ = s.depth_trim_button_previous_ ∧
    (joy_lights s j).tilt_ = s.tilt_ ∧
    (joy_lights s j).tilt_trim_button_previous_ = s.tilt_trim_button_previous_ := by
  simp only [joy_lights, publishLights, OrcaBase.publish]
  split_ifs <;> simp

theorem joy_camera_tilt_frame (s : OrcaBase) (j : Joy) :
    (joy_camera_tilt s j).yaw_setpoint_ = s.yaw_setpoint_ ∧
    (joy_camera_tilt s j).yaw_trim_button_previous_ = s.yaw_trim_button_previous_ ∧
    (joy_camera_tilt s j).depth_setpoint_ = s.depth_setpoint_ ∧
    (joy_camera_tilt s j).depth_trim_button_previous_ = s.depth_trim_button_previous_ ∧
    (joy_camera_tilt s j).lights_ = s.lights_ ∧
    (joy_camera_tilt s j).lights_trim_button_previous_ = s.lights_trim_button_previous_ := by
  simp only [joy_camera_tilt, publishCameraTilt, OrcaBase.publish]
  split_ifs <;> simp

theorem joy_depth_trim_frame (s : OrcaBase) (j : Joy) :
    (joy_depth_trim s j).yaw_setpoint_ = s.yaw_setpoint_ ∧
    (joy_depth_trim s j).yaw_trim_button_previous_ = s.yaw_trim_button_previous_ ∧
    (joy_depth_trim s j).tilt_ = s.tilt_ ∧
    (joy_depth_trim s j).tilt_trim_button_previous_ = s.tilt_trim_button_previous_ ∧
    (joy_depth_trim s j).lights_ = s.lights_ ∧
    (joy_depth_trim s j).lights_trim_button_previous_ = s.lights_trim_button_previous_ := by
  simp only [joy_depth_trim, publishDepthSetpoint, OrcaBase.publish]
  split_ifs <;> simp

theorem joy_yaw_trim_frame (s : OrcaBase) (j : Joy) :
    (joy_yaw_trim s j).depth_setpoint_ = s.depth_setpoint_ ∧
    (joy_yaw_trim s j).depth_trim_button_previous_ = s.depth_trim_button_previous_ ∧
    (joy_yaw_trim s j).tilt_ = s.tilt_ ∧
    (joy_yaw_trim s j).tilt_trim_button_previous_ = s.tilt_trim_button_previous_ ∧
    (joy_yaw_trim s j).lights_ = s.lights_ ∧
    (joy_yaw_trim s j).lights_trim_button_previous_ = s.lights_trim_button_previous_ := by
  simp only [joy_yaw_trim, publishYawSetpoint, OrcaBase.publish]
  split_ifs <;> simp

/-- Yaw setpoint and yaw latch after the trim and later blocks are those left by the
"Yaw trim" block. -/
theorem after_yaw_trim (s : OrcaBase) (j : Joy) :
    (joy_thrusters (joy_lights (joy_camera_tilt (joy_depth_trim (joy_yaw_trim s j) j) j) j)
      j).yaw_setpoint_ = (joy_yaw_trim s j).yaw_setpoint_ ∧
    (joy_thrusters (joy_lights (joy_camera_tilt (joy_depth_trim (joy_yaw_trim s j) j) j) j)
      j).yaw_trim_button_previous_ = (joy_yaw_trim s j).yaw_trim_button_previous_ := by
  rw [(joy_thrusters_frame _ j).1, (joy_lights_frame _ j).1, (joy_camera_tilt_frame _ j).1,
    (joy_depth_trim_frame _ j).1, (joy_thrusters_frame _ j).2.1, (joy_lights_frame _ j).2.1,
    (joy_camera_tilt_frame _ j).2.1, (joy_depth_trim_frame _ j).2.1]
  exact ⟨rfl, rfl⟩

/-- Depth setpoint and depth latch after the trim and later blocks are those left by the
"Depth trim" block. -/
theorem after_depth_trim (s : OrcaBase) (j : Joy) :
    (joy_thrusters (joy_lights (joy_camera_tilt (joy_depth_trim s j) j) j)
      j).depth_setpoint_ = (joy_depth_trim s j).depth_setpoint_ ∧
    (joy_thrusters (joy_lights (joy_camera_tilt (joy_depth_trim s j) j) j)
      j).depth_trim_button_previous_ = (joy_depth_trim s j).depth_trim_button_previous_ := by
  rw [(joy_thrusters_frame _ j).2.2.1, (joy_lights_frame _ j).2.2.1,
    (joy_camera_tilt_frame _ j).2.2.1, (joy_thrusters_frame _ j).2.2.2.1,
    (joy_lights_frame _ j).2.2.2.1, (joy_camera_tilt_frame _ j).2.2.2.1]
  exact ⟨rfl, rfl⟩

/-! ## C3: a held trim axis -/

/-- One sample with the yaw-trim axis pushed to the positive side and no arm, disarm or
mode-select button, in a closed-loop yaw mode: the setpoint steps iff the latch was
clear, and the latch flips. -/
theorem joyCallback_yaw_trim_pos (s : OrcaBase) (j : Joy)
    (hm : s.mode_ = Mode.stabilize ∨ s.mode_ = Mode.depth_hold)
    (h1 : j.button JOY_BUTTON_DISARM = false) (h2 : j.button JOY_BUTTON_ARM = false)
    (h3 : j.button JOY_BUTTON_MANUAL = false) (h4 : j.button JOY_BUTTON_STABILIZE = false)
    (h5 : j.button JOY_BUTTON_DEPTH_HOLD = false) (h6 : j.button JOY_BUTTON_SURFACE = false)
    (ht : 0 < j.axis JOY_AXIS_YAW_TRIM) :
    (joyCallback s j).mode_ = s.mode_ ∧
    (joyCallback s j).yaw_setpoint_ =
      (if s.yaw_trim_button_previous_ = false then s.yaw_setpoint_ + INC_YAW
       else s.yaw_setpoint_) ∧
    (joyCallback s j).yaw_trim_button_previous_ = !s.yaw_trim_button_previous_ := by
  have hne : s.mode_ ≠ Mode.disarmed := by rcases hm with h | h <;> simp [h]
  have hmode : (joyCallback s j).mode_ = s.mode_ := by
    rw [joyCallback_mode_of_armed, joy_select_mode_mode] <;>
      simp [joy_arm_disarm, h1, h2, h3, h4, h5, h6, hne]
  rw [joyCallback_no_mode_button s j hne h1 h2 h3 h4 h5 h6] at hmode ⊢
  rw [(after_yaw_trim s j).1, (after_yaw_trim s j).2]
  refine ⟨hmode, ?_, ?_⟩
  · simp only [joy_yaw_trim, publishYawSetpoint, OrcaBase.publish]
    cases hl : s.yaw_trim_button_previous_ <;> simp [hm, ht, ht.ne']
  · simp only [joy_yaw_trim, publishYawSetpoint, OrcaBase.publish]
    cases hl : s.yaw_trim_button_previous_ <;> simp [hm, ht.ne']

/-- One sample with the depth-trim axis pushed to the positive side and no arm, disarm or
mode-select button, in depth-hold mode: the setpoint steps iff the latch was clear, and
the latch flips. -/
theorem joyCallback_depth_trim_pos (s : OrcaBase) (j : Joy)
    (hm : s.mode_ = Mode.depth_hold)
    (h1 : j.button JOY_BUTTON_DISARM = false) (h2 : j.button JOY_BUTTON_ARM = false)
    (h3 : j.button JOY_BUTTON_MANUAL = false) (h4 : j.button JOY_BUTTON_STABILIZE = false)
    (h5 : j.button JOY_BUTTON_DEPTH_HOLD = false) (h6 : j.button JOY_BUTTON_SURFACE = false)
    (ht : 0 < j.axis JOY_AXIS_VERTICAL_TRIM) :
    (joyCallback s j).mode_ = s.mode_ ∧
    (joyCallback s j).depth_setpoint_ =
      (if s.depth_trim_button_previous_ = false then s.depth_setpoint_ + INC_DEPTH
       else s.depth_setpoint_) ∧
    (joyCallback s j).depth_trim_button_previous_ = !s.depth_trim_button_previous_ := by
  have hne : s.mode_ ≠ Mode.disarmed := by simp [hm]
  have hmode : (joyCallback s j).mode_ = s.mode_ := by
    rw [joyCallback_mode_of_armed, joy_select_mode_mode] <;>
      simp [joy_arm_disarm, h1, h2, h3, h4, h5, h6, hne]
  rw [joyCallback_no_mode_button s j hne h1 h2 h3 h4 h5 h6] at hmode ⊢
  rw [(after_depth_trim _ j).1, (after_depth_trim _ j).2]
  have hm2 : (joy_yaw_trim s j).mode_ = Mode.depth_hold := by rw [joy_yaw_trim_mode, hm]
  have e1 := (joy_yaw_trim_frame s j).1
  have e2 := (joy_yaw_trim_frame s j).2.1
  refine ⟨hmode, ?_, ?_⟩
  · simp only [joy_depth_trim, publishDepthSetpoint, OrcaBase.publish]
    cases hl : s.depth_trim_button_previous_ <;> simp [hm2, ht, ht.ne', e1, e2, hl]
  · simp only [joy_depth_trim, publishDepthSetpoint, OrcaBase.publish]
    cases hl : s.depth_trim_button_previous_ <;> simp [hm2, ht.ne', e2, hl]

theorem push_axis_self_yaw_trim :
    (Joy.push JOY_AXIS_YAW_TRIM 1).axis JOY_AXIS_YAW_TRIM = 1 := by
  simp [Joy.axis, Joy.push, Joy.neutral, JOY_AXIS_YAW_TRIM]

theorem push_axis_self_vertical_trim :
    (Joy.push JOY_AXIS_VERTICAL_TRIM 1).axis JOY_AXIS_VERTICAL_TRIM = 1 := by
  simp [Joy.axis, Joy.push, Joy.neutral, JOY_AXIS_VERTICAL_TRIM]

/-- C3. The code at the failing input: in stabilize mode with the yaw-trim latch clear,
three consecutive samples that hold the yaw-trim axis at 1.0 (no button pressed, no
release in between) move the yaw setpoint by two steps of 3.14159/36, not one; likewise
in depth-hold mode three samples holding the depth-trim axis at 1.0 move the depth
setpoint by two steps of 0.1. -/
theorem held_trim_three_samples_two_steps (s : OrcaBase) :
    (joyCallback (joyCallback (joyCallback
        { s with mode_ := Mode.stabilize, yaw_trim_button_previous_ := false }
        (Joy.push JOY_AXIS_YAW_TRIM 1)) (Joy.push JOY_AXIS_YAW_TRIM 1))
        (Joy.push JOY_AXIS_YAW_TRIM 1)).yaw_setpoint_ = s.yaw_setpoint_ + 2 * (314159 / 100000 / 36) ∧
    (joyCallback (joyCallback (joyCallback
        { s with mode_ := Mode.depth_hold, depth_trim_button_previous_ := false }
        (Joy.push JOY_AXIS_VERTICAL_TRIM 1)) (Joy.push JOY_AXIS_VERTICAL_TRIM 1))
        (Joy.push JOY_AXIS_VERTICAL_TRIM 1)).depth_setpoint_ = s.depth_setpoint_ + 2 * (1 / 10) := by
  constructor
  · have ht : 0 < (Joy.push JOY_AXIS_YAW_TRIM 1).axis JOY_AXIS_YAW_TRIM := by
      rw [push_axis_self_yaw_trim]; norm_num
    have step := fun (x : OrcaBase) (hx : x.mode_ = Mode.stabilize ∨ x.mode_ = Mode.depth_hold) =>
      joyCallback_yaw_trim_pos x (Joy.push JOY_AXIS_YAW_TRIM 1) hx (push_button _ _ _)
        (push_button _ _ _) (push_button _ _ _) (push_button _ _ _) (push_button _ _ _)
        (push_button _ _ _) ht
    obtain ⟨m1, y1, l1⟩ := step
      { s with mode_ := Mode.stabilize, yaw_trim_button_previous_ := false } (Or.inl rfl)
    obtain ⟨m2, y2, l2⟩ := step _ (Or.inl m1)
    obtain ⟨-, y3, -⟩ := step _ (Or.inl (m2.trans m1))
    rw [y3, l2, y2, l1, y1]
    simp [INC_YAW, PI]
    ring
  · have ht : 0 < (Joy.push JOY_AXIS_VERTICAL_TRIM 1).axis JOY_AXIS_VERTICAL_TRIM := by
      rw [push_axis_self_vertical_trim]; norm_num
    have step := fun (x : OrcaBase) (hx : x.mode_ = Mode.depth_hold) =>
      joyCallback_depth_trim_pos x (Joy.push JOY_AXIS_VERTICAL_TRIM 1) hx (push_button _ _ _)
        (push_button _ _ _) (push_button _ _ _) (push_button _ _ _) (push_button _ _ _)
        (push_button _ _ _) ht
    obtain ⟨m1, y1, l1⟩ := step
      { s with mode_ := Mode.depth_hold, depth_trim_button_previous_ := false } rfl
    obtain ⟨m2, y2, l2⟩ := step _ m1
    obtain ⟨-, y3, -⟩ := step _ (m2.trans m1)
    rw [y3, l2, y2, l1, y1]
    simp [INC_DEPTH]
    ring

/-! ## C4: the camera-tilt and lights latches -/

/-- With no arm, disarm or mode-select button pressed and the node armed, the mode is kept
and camera tilt and lights (values and latches) are what their own blocks compute from
the state before the sample. -/
theorem joyCallback_tilt_lights (s : OrcaBase) (j : Joy) (hm : s.mode_ ≠ Mode.disarmed)
    (h1 : j.button JOY_BUTTON_DISARM = false) (h2 : j.button JOY_BUTTON_ARM = false)
    (h3 : j.button JOY_BUTTON_MANUAL = false) (h4 : j.button JOY_BUTTON_STABILIZE = false)
    (h5 : j.button JOY_BUTTON_DEPTH_HOLD = false) (h6 : j.button JOY_BUTTON_SURFACE = false) :
    (joyCallback s j).mode_ = s.mode_ ∧
    (joyCallback s j).tilt_ = (joy_camera_tilt s j).tilt_ ∧
    (joyCallback s j).tilt_trim_button_previous_ =
      (joy_camera_tilt s j).tilt_trim_button_previous_ ∧
    (joyCallback s j).lights_ = (joy_lights s j).lights_ ∧
    (joyCallback s j).lights_trim_button_previous_ =
      (joy_lights s j).lights_trim_button_previous_ := by
  have hmode : (joyCallback s j).mode_ = s.mode_ := by
    rw [joyCallback_mode_of_armed, joy_select_mode_mode] <;>
      simp [joy_arm_disarm, h1, h2, h3, h4, h5, h6, hm]
  rw [joyCallback_no_mode_button s j hm h1 h2 h3 h4 h5 h6] at hmode ⊢
  obtain ⟨-, -, y3, y4, y5, y6⟩ := joy_yaw_trim_frame s j
  obtain ⟨-, -, d3, d4, d5, d6⟩ := joy_depth_trim_frame (joy_yaw_trim s j) j
  obtain ⟨-, -, -, -, c5, c6⟩ := joy_camera_tilt_frame (joy_depth_trim (joy_yaw_trim s j) j) j
  obtain ⟨-, -, -, -, l5, l6⟩ :=
    joy_lights_frame (joy_camera_tilt (joy_depth_trim (joy_yaw_trim s j) j) j) j
  obtain ⟨-, -, -, -, t5, t6, t7, t8, -⟩ := joy_thrusters_frame
    (joy_lights (joy_camera_tilt (joy_depth_trim (joy_yaw_trim s j) j) j) j) j
  refine ⟨hmode, ?_, ?_, ?_, ?_⟩
  · rw [t5, l5]
    simp only [joy_camera_tilt, publishCameraTilt, OrcaBase.publish, d3, d4, y3, y4]
    split_ifs <;> simp [d3, y3]
  · rw [t6, l6]
    simp only [joy_camera_tilt, publishCameraTilt, OrcaBase.publish, d3, d4, y3, y4]
    split_ifs <;> simp [d4, y4]
  · rw [t7]
    simp only [joy_lights, publishLights, OrcaBase.publish, c5, c6, d5, d6, y5, y6]
    split_ifs <;> simp [c5, d5, y5]
  · rw [t8]
    simp only [joy_lights, publishLights, OrcaBase.publish, c5, c6, d5, d6, y5, y6]
    split_ifs <;> simp [c6, d6, y6]

/-- Tilt-up pressed, all released, tilt-up pressed, from an armed state with the tilt
latch clear: the latch is still set after the release sample and the tilt has moved by
one clamped step only. -/
theorem tilt_press_release_press (x : OrcaBase) (hm : x.mode_ ≠ Mode.disarmed)
    (hl : x.tilt_trim_button_previous_ = false) :
    (joyCallback (joyCallback x (Joy.press JOY_CAMERA_TILT_UP))
      Joy.neutral).tilt_trim_button_previous_ = true ∧
    (joyCallback (joyCallback (joyCallback x (Joy.press JOY_CAMERA_TILT_UP)) Joy.neutral)
      (Joy.press JOY_CAMERA_TILT_UP)).tilt_ = clamp (x.tilt_ + INC_TILT) (-1) 1 := by
  have up := fun (y : OrcaBase) (hy : y.mode_ ≠ Mode.disarmed) =>
    joyCallback_tilt_lights y (Joy.press JOY_CAMERA_TILT_UP) hy (by decide) (by decide)
      (by decide) (by decide) (by decide) (by decide)
  have rel := fun (y : OrcaBase) (hy : y.mode_ ≠ Mode.disarmed) =>
    joyCallback_tilt_lights y Joy.neutral hy (neutral_button _) (neutral_button _)
      (neutral_button _) (neutral_button _) (neutral_button _) (neutral_button _)
  have bu : (Joy.press JOY_CAMERA_TILT_UP).button JOY_CAMERA_TILT_UP = true := by decide
  obtain ⟨m1, a1, b1, -⟩ := up x hm
  have hm1 : (joyCallback x (Joy.press JOY_CAMERA_TILT_UP)).mode_ ≠ Mode.disarmed := by
    rw [m1]; exact hm
  obtain ⟨m2, a2, b2, -⟩ := rel _ hm1
  have hm2 : (joyCallback (joyCallback x (Joy.press JOY_CAMERA_TILT_UP)) Joy.neutral).mode_
      ≠ Mode.disarmed := by
    rw [m2]; exact hm1
  obtain ⟨-, a3, -, -⟩ := up _ hm2
  have l1 : (joyCallback x (Joy.press JOY_CAMERA_TILT_UP)).tilt_trim_button_previous_
      = true := by
    rw [b1]; simp [joy_camera_tilt, hl, bu, publishCameraTilt, OrcaBase.publish]
  have l2 : (joyCallback (joyCallback x (Joy.press JOY_CAMERA_TILT_UP))
      Joy.neutral).tilt_trim_button_previous_ = true := by
    rw [b2]; simp [joy_camera_tilt, l1]
  refine ⟨l2, ?_⟩
  rw [a3]
  simp only [joy_camera_tilt, l2, Bool.true_eq_false, if_false]
  rw [a2]
  simp only [joy_camera_tilt, l1, Bool.true_eq_false, if_false]
  rw [a1]
  simp [joy_camera_tilt, hl, bu, publishCameraTilt, OrcaBase.publish]

/-- Bright pressed, all released, bright pressed, from an armed state with the lights
latch clear: the latch is still set after the release sample and the brightness has
moved by one clamped step only. -/
theorem lights_press_release_press (x : OrcaBase) (hm : x.mode_ ≠ Mode.disarmed)
    (hl : x.lights_trim_button_previous_ = false) :
    (joyCallback (joyCallback x (Joy.press JOY_LIGHTS_BRIGHT))
      Joy.neutral).lights_trim_button_previous_ = true ∧
    (joyCallback (joyCallback (joyCallback x (Joy.press JOY_LIGHTS_BRIGHT)) Joy.neutral)
      (Joy.press JOY_LIGHTS_BRIGHT)).lights_ = clamp (x.lights_ + INC_LIGHTS) 0 1 := by
  have br := fun (y : OrcaBase) (hy : y.mode_ ≠ Mode.disarmed) =>
    joyCallback_tilt_lights y (Joy.press JOY_LIGHTS_BRIGHT) hy (by decide) (by decide)
      (by decide) (by decide) (by decide) (by decide)
  have rel := fun (y : OrcaBase) (hy : y.mode_ ≠ Mode.disarmed) =>
    joyCallback_tilt_lights y Joy.neutral hy (neutral_button _) (neutral_button _)
      (neutral_button _) (neutral_button _) (neutral_button _) (neutral_button _)
  have bb : (Joy.press JOY_LIGHTS_BRIGHT).button JOY_LIGHTS_BRIGHT = true := by decide
  obtain ⟨m1, -, -, a1, b1⟩ := br x hm
  have hm1 : (joyCallback x (Joy.press JOY_LIGHTS_BRIGHT)).mode_ ≠ Mode.disarmed := by
    rw [m1]; exact hm
  obtain ⟨m2, -, -, a2, b2⟩ := rel _ hm1
  have hm2 : (joyCallback (joyCallback x (Joy.press JOY_LIGHTS_BRIGHT)) Joy.neutral).mode_
      ≠ Mode.disarmed := by
    rw [m2]; exact hm1
  obtain ⟨-, -, -, a3, -⟩ := br _ hm2
  have l1 : (joyCallback x (Joy.press JOY_LIGHTS_BRIGHT)).lights_trim_button_previous_
      = true := by
    rw [b1]; simp [joy_lights, hl, bb, publishLights, OrcaBase.publish]
  have l2 : (joyCallback (joyCallback x (Joy.press JOY_LIGHTS_BRIGHT))
      Joy.neutral).lights_trim_button_previous_ = true := by
    rw [b2]; simp [joy_lights, l1]
  refine ⟨l2, ?_⟩
  rw [a3]
  simp only [joy_lights, l2, Bool.true_eq_false, if_false]
  rw [a2]
  simp only [joy_lights, l1, Bool.true_eq_false, if_false]
  rw [a1]
  simp [joy_lights, hl, bb, publishLights, OrcaBase.publish]

/-- C4. The code at the failing input: from an armed state with tilt 0 and the tilt latch
clear, the samples tilt-up pressed, all released, tilt-up pressed end with tilt 0.2 and
the latch still set (it is already still set after the release sample), not with tilt 0.4;
the lights do the same with the bright button. -/
theorem tilt_latch_stays_set (s : OrcaBase) :
    (joyCallback (joyCallback
        { s with mode_ := Mode.manual, tilt_ := 0, tilt_trim_button_previous_ := false }
        (Joy.press JOY_CAMERA_TILT_UP)) Joy.neutral).tilt_trim_button_previous_ = true ∧
    (joyCallback (joyCallback (joyCallback
        { s with mode_ := Mode.manual, tilt_ := 0, tilt_trim_button_previous_ := false }
        (Joy.press JOY_CAMERA_TILT_UP)) Joy.neutral) (Joy.press JOY_CAMERA_TILT_UP)).tilt_
      = 2 / 10 ∧
    (joyCallback (joyCallback
        { s with mode_ := Mode.manual, lights_ := 0, lights_trim_button_previous_ := false }
        (Joy.press JOY_LIGHTS_BRIGHT)) Joy.neutral).lights_trim_button_previous_ = true ∧
    (joyCallback (joyCallback (joyCallback
        { s with mode_ := Mode.manual, lights_ := 0, lights_trim_button_previous_ := false }
        (Joy.press JOY_LIGHTS_BRIGHT)) Joy.neutral) (Joy.press JOY_LIGHTS_BRIGHT)).lights_
      = 2 / 10 := by
  have hman : Mode.manual ≠ Mode.disarmed := by decide
  obtain ⟨t1, t2⟩ := tilt_press_release_press
    { s with mode_ := Mode.manual, tilt_ := 0, tilt_trim_button_previous_ := false } hman rfl
  obtain ⟨l1, l2⟩ := lights_press_release_press
    { s with mode_ := Mode.manual, lights_ := 0, lights_trim_button_previous_ := false } hman rfl
  refine ⟨t1, ?_, l1, ?_⟩
  · rw [t2]; simp [clamp, INC_TILT]; norm_num
  · rw [l2]; simp [clamp, INC_LIGHTS]; norm_num

/-! ## More facts about `setMode` and `joyCallback` -/

theorem setMode_manual_eq (s : OrcaBase) (d : ℚ) :
    setMode s Mode.manual d =
      { s with mode_ := Mode.manual,
               published := s.published ++
                 [Msg.depth_pid_enable false, Msg.yaw_pid_enable false] } := by
  simp [setMode, setMode_depth, setMode_yaw, setMode_efforts, OrcaBase.publish]

theorem setMode_stabilize_eq (s : OrcaBase) (d : ℚ) :
    setMode s Mode.stabilize d =
      { s with mode_ := Mode.stabilize, yaw_setpoint_ := s.yaw_state_,
               yaw_trim_button_previous_ := false,
               published := s.published ++
                 [Msg.depth_pid_enable false, Msg.yaw_pid_enable true,
                  Msg.yaw_setpoint s.yaw_state_] } := by
  simp [setMode, setMode_depth, setMode_yaw, setMode_efforts, OrcaBase.publish,
    publishYawSetpoint]

theorem setMode_depth_hold_eq (s : OrcaBase) (d : ℚ) :
    setMode s Mode.depth_hold d =
      { s with mode_ := Mode.depth_hold, depth_setpoint_ := d,
               depth_trim_button_previous_ := false, yaw_setpoint_ := s.yaw_state_,
               yaw_trim_button_previous_ := false,
               published := s.published ++
                 [Msg.depth_pid_enable true, Msg.depth_setpoint d, Msg.yaw_pid_enable true,
                  Msg.yaw_setpoint s.yaw_state_] } := by
  simp [setMode, setMode_depth, setMode_yaw, setMode_efforts, OrcaBase.publish,
    publishYawSetpoint, publishDepthSetpoint]

/-- A sample that is not cut short runs all the blocks of `joyCallback` in order. -/
theorem joyCallback_armed (s : OrcaBase) (j : Joy)
    (h : (joy_arm_disarm s j).mode_ ≠ Mode.disarmed) :
    joyCallback s j =
      joy_thrusters (joy_lights (joy_camera_tilt (joy_depth_trim (joy_yaw_trim
        (joy_select_mode (joy_arm_disarm s j) j) j) j) j) j) j := by
  simp [joyCallback, h]

/-- The arm/disarm block of an armed node whose disarm button is released keeps it armed. -/
theorem joy_arm_disarm_armed (s : OrcaBase) (j : Joy) (hm : s.mode_ ≠ Mode.disarmed)
    (hd : j.button JOY_BUTTON_DISARM = false) :
    (joy_arm_disarm s j).mode_ ≠ Mode.disarmed := by
  by_cases ha : j.button JOY_BUTTON_ARM = true
  · simp [joy_arm_disarm, hd, ha, setMode_mode]
  · simpa [joy_arm_disarm, hd, ha] using hm

/-! ## C5: mode-select priority -/

/-- C5. For an armed node and a sample whose disarm button is released, the mode after
`joyCallback` follows the priority manual > stabilize > depth-hold > surface: manual if
the manual button is pressed (whatever the other three), else stabilize if stabilize is
pressed, else depth-hold if depth-hold or surface is pressed; with none of the four and
not the arm button pressed the mode is unchanged. -/
theorem mode_select_priority (s : OrcaBase) (j : Joy) (hm : s.mode_ ≠ Mode.disarmed)
    (hd : j.button JOY_BUTTON_DISARM = false) :
    (j.button JOY_BUTTON_MANUAL = true → (joyCallback s j).mode_ = Mode.manual) ∧
    (j.button JOY_BUTTON_MANUAL = false → j.button JOY_BUTTON_STABILIZE = true →
      (joyCallback s j).mode_ = Mode.stabilize) ∧
    (j.button JOY_BUTTON_MANUAL = false → j.button JOY_BUTTON_STABILIZE = false →
      (j.button JOY_BUTTON_DEPTH_HOLD = true ∨ j.button JOY_BUTTON_SURFACE = true) →
      (joyCallback s j).mode_ = Mode.depth_hold) ∧
    (j.button JOY_BUTTON_MANUAL = false → j.button JOY_BUTTON_STABILIZE = false →
      j.button JOY_BUTTON_DEPTH_HOLD = false → j.button JOY_BUTTON_SURFACE = false →
      j.button JOY_BUTTON_ARM = false → (joyCallback s j).mode_ = s.mode_) := by
  rw [joyCallback_mode_of_armed s j (joy_arm_disarm_armed s j hm hd), joy_select_mode_mode]
  refine ⟨?_, ?_, ?_, ?_⟩
  · intro h; simp [h]
  · intro h1 h2; simp [h1, h2]
  · intro h1 h2 h3
    rcases h3 with h3 | h3
    · simp [h1, h2, h3]
    · cases h4 : j.button JOY_BUTTON_DEPTH_HOLD <;> simp [h1, h2, h3]
  · intro h1 h2 h3 h4 h5
    simp [h1, h2, h3, h4, joy_arm_disarm, hd, h5]

/-- C5 on a sample with the manual and stabilize buttons both pressed, in depth-hold mode:
the mode becomes manual. -/
theorem mode_select_priority_witness :
    holding.mode_ ≠ Mode.disarmed ∧ manual_and_stabilize.button JOY_BUTTON_DISARM = false ∧
    manual_and_stabilize.button JOY_BUTTON_MANUAL = true ∧
    manual_and_stabilize.button JOY_BUTTON_STABILIZE = true ∧
    (joyCallback holding manual_and_stabilize).mode_ = Mode.manual :=
  ⟨by decide, by decide, by decide, by decide,
   (mode_select_priority holding manual_and_stabilize (by decide) (by decide)).1 (by decide)⟩

/-! ## C6: yaw setpoint snapshot -/

/-- C6. `setMode` to stabilize or depth-hold overwrites the yaw setpoint with the cached
yaw state whatever it held before, clears the yaw-trim latch and publishes that value as
the one yaw setpoint message of the call; `setMode` to manual or disarmed leaves the yaw
setpoint as it was and publishes no yaw setpoint. -/
theorem setMode_yaw_snapshot (s : OrcaBase) (d : ℚ) :
    ((setMode s Mode.stabilize d).yaw_setpoint_ = s.yaw_state_ ∧
     (setMode s Mode.stabilize d).yaw_trim_button_previous_ = false ∧
     (setMode s Mode.stabilize d).published = s.published ++
       [Msg.depth_pid_enable false, Msg.yaw_pid_enable true, Msg.yaw_setpoint s.yaw_state_]) ∧
    ((setMode s Mode.depth_hold d).yaw_setpoint_ = s.yaw_state_ ∧
     (setMode s Mode.depth_hold d).yaw_trim_button_previous_ = false ∧
     (setMode s Mode.depth_hold d).published = s.published ++
       [Msg.depth_pid_enable true, Msg.depth_setpoint d, Msg.yaw_pid_enable true,
        Msg.yaw_setpoint s.yaw_state_]) ∧
    ((setMode s Mode.manual d).yaw_setpoint_ = s.yaw_setpoint_ ∧
     (setMode s Mode.manual d).published = s.published ++
       [Msg.depth_pid_enable false, Msg.yaw_pid_enable false]) ∧
    ((setMode s Mode.disarmed d).yaw_setpoint_ = s.yaw_setpoint_ ∧
     (setMode s Mode.disarmed d).published = s.published ++
       [Msg.depth_pid_enable false, Msg.yaw_pid_enable false]) := by
  rw [setMode_stabilize_eq, setMode_depth_hold_eq, setMode_manual_eq, setMode_disarmed_eq]
  simp

/-! ## C7: depth-hold and surface entry -/

theorem joy_yaw_trim_published (s : OrcaBase) (j : Joy) :
    ∃ post, (joy_yaw_trim s j).published = s.published ++ post := by
  simp only [joy_yaw_trim, publishYawSetpoint, OrcaBase.publish]
  split_ifs <;> first | exact ⟨_, rfl⟩ | exact ⟨[], by simp⟩

theorem joy_camera_tilt_published (s : OrcaBase) (j : Joy) :
    ∃ post, (joy_camera_tilt s j).published = s.published ++ post := by
  simp only [joy_camera_tilt, publishCameraTilt, OrcaBase.publish]
  split_ifs <;> first | exact ⟨_, rfl⟩ | exact ⟨[], by simp⟩

theorem joy_lights_published (s : OrcaBase) (j : Joy) :
    ∃ post, (joy_lights s j).published = s.published ++ post := by
  simp only [joy_lights, publishLights, OrcaBase.publish]
  split_ifs <;> first | exact ⟨_, rfl⟩ | exact ⟨[], by simp⟩

/-- The depth-trim block with the trim axis neutral only clears its latch. -/
theorem joy_depth_trim_neutral (s : OrcaBase) (j : Joy)
    (ht : j.axis JOY_AXIS_VERTICAL_TRIM = 0) :
    joy_depth_trim s j = { s with depth_trim_button_previous_ := false } := by
  simp [joy_depth_trim, ht]

/-- The arm/disarm block with the disarm button released keeps the cached depth and only
appends to the traffic. -/
theorem joy_arm_disarm_depth_state (s : OrcaBase) (j : Joy)
    (hd : j.button JOY_BUTTON_DISARM = false) :
    (joy_arm_disarm s j).depth_state_ = s.depth_state_ ∧
    ∃ pre, (joy_arm_disarm s j).published = s.published ++ pre := by
  by_cases ha : j.button JOY_BUTTON_ARM = true
  · simp only [joy_arm_disarm, hd, ha, setMode_manual_eq]
    exact ⟨rfl, _, rfl⟩
  · simp only [joy_arm_disarm, hd, ha]
    exact ⟨rfl, [], by simp⟩

/-- Everything after a `setMode(Mode::depth_hold, d)` in a sample whose depth-trim axis is
neutral: the depth setpoint is `d`, the depth latch is clear, and the traffic carries the
depth enable directly followed by the depth setpoint. -/
theorem after_setMode_depth_hold (s : OrcaBase) (j : Joy) (d : ℚ)
    (ht : j.axis JOY_AXIS_VERTICAL_TRIM = 0) :
    (joy_thrusters (joy_lights (joy_camera_tilt (joy_depth_trim (joy_yaw_trim
      (setMode s Mode.depth_hold d) j) j) j) j) j).depth_setpoint_ = d ∧
    (joy_thrusters (joy_lights (joy_camera_tilt (joy_depth_trim (joy_yaw_trim
      (setMode s Mode.depth_hold d) j) j) j) j) j).depth_trim_button_previous_ = false ∧
    ∃ post, (joy_thrusters (joy_lights (joy_camera_tilt (joy_depth_trim (joy_yaw_trim
      (setMode s Mode.depth_hold d) j) j) j) j) j).published =
      s.published ++ [Msg.depth_pid_enable true, Msg.depth_setpoint d] ++ post := by
  obtain ⟨e1, e2⟩ := after_depth_trim (joy_yaw_trim (setMode s Mode.depth_hold d) j) j
  obtain ⟨p1, hp1⟩ := joy_yaw_trim_published (setMode s Mode.depth_hold d) j
  obtain ⟨p2, hp2⟩ := joy_camera_tilt_published
    (joy_depth_trim (joy_yaw_trim (setMode s Mode.depth_hold d) j) j) j
  obtain ⟨p3, hp3⟩ := joy_lights_published
    (joy_camera_tilt (joy_depth_trim (joy_yaw_trim (setMode s Mode.depth_hold d) j) j) j) j
  have hp4 := (joy_thrusters_frame (joy_lights (joy_camera_tilt (joy_depth_trim (joy_yaw_trim
    (setMode s Mode.depth_hold d) j) j) j) j) j).2.2.2.2.2.2.2.2
  refine ⟨?_, ?_, ?_⟩
  · rw [e1, joy_depth_trim_neutral _ j ht]
    show (joy_yaw_trim (setMode s Mode.depth_hold d) j).depth_setpoint_ = d
    rw [(joy_yaw_trim_frame _ j).1, setMode_depth_hold_eq]
  · rw [e2, joy_depth_trim_neutral _ j ht]
  · refine ⟨[Msg.yaw_pid_enable true, Msg.yaw_setpoint s.yaw_state_] ++ p1 ++ p2 ++ p3, ?_⟩
    rw [hp4, hp3, hp2, joy_depth_trim_neutral _ j ht]
    show (joy_yaw_trim (setMode s Mode.depth_hold d) j).published ++ p2 ++ p3 = _
    rw [hp1, setMode_depth_hold_eq]
    simp

/-- C7. For an armed node and a sample with disarm, manual and stabilize released and the
depth-trim axis neutral: if the depth-hold button is pressed the sample ends in depth-hold
mode with the depth setpoint equal to the cached depth state; otherwise, if the surface
button is pressed, it ends in depth-hold mode with the depth setpoint 10.0.  In both
cases the depth-trim latch is clear afterwards and the traffic of the sample contains
the depth-controller enable (true) directly followed by that depth setpoint. -/
theorem depth_hold_entry (s : OrcaBase) (j : Joy) (hm : s.mode_ ≠ Mode.disarmed)
    (hd : j.button JOY_BUTTON_DISARM = false) (h3 : j.button JOY_BUTTON_MANUAL = false)
    (h4 : j.button JOY_BUTTON_STABILIZE = false) (ht : j.axis JOY_AXIS_VERTICAL_TRIM = 0) :
    (j.button JOY_BUTTON_DEPTH_HOLD = true →
      (joyCallback s j).mode_ = Mode.depth_hold ∧
      (joyCallback s j).depth_setpoint_ = s.depth_state_ ∧
      (joyCallback s j).depth_trim_button_previous_ = false ∧
      ∃ pre post, (joyCallback s j).published = s.published ++ pre ++
        [Msg.depth_pid_enable true, Msg.depth_setpoint s.depth_state_] ++ post) ∧
    (j.button JOY_BUTTON_DEPTH_HOLD = false → j.button JOY_BUTTON_SURFACE = true →
      (joyCallback s j).mode_ = Mode.depth_hold ∧
      (joyCallback s j).depth_setpoint_ = 10 ∧
      (joyCallback s j).depth_trim_button_previous_ = false ∧
      ∃ pre post, (joyCallback s j).published = s.published ++ pre ++
        [Msg.depth_pid_enable true, Msg.depth_setpoint 10] ++ post) := by
  have harm := joy_arm_disarm_armed s j hm hd
  obtain ⟨hds, pre, hpre⟩ := joy_arm_disarm_depth_state s j hd
  have hmode := joyCallback_mode_of_armed s j harm
  rw [joy_select_mode_mode] at hmode
  constructor
  · intro h5
    have hsel : joy_select_mode (joy_arm_disarm s j) j =
        setMode (joy_arm_disarm s j) Mode.depth_hold s.depth_state_ := by
      simp [joy_select_mode, h3, h4, h5, hds]
    obtain ⟨a1, a2, post, a3⟩ := after_setMode_depth_hold (joy_arm_disarm s j) j s.depth_state_ ht
    have hm' : (joyCallback s j).mode_ = Mode.depth_hold := by
      rw [hmode]; simp [h3, h4, h5]
    rw [joyCallback_armed s j harm, hsel] at hm' ⊢
    exact ⟨hm', a1, a2, pre, post, by rw [a3, hpre]⟩
  · intro h5 h6
    have hsel : joy_select_mode (joy_arm_disarm s j) j =
        setMode (joy_arm_disarm s j) Mode.depth_hold 10 := by
      simp [joy_select_mode, h3, h4, h5, h6]
    obtain ⟨a1, a2, post, a3⟩ := after_setMode_depth_hold (joy_arm_disarm s j) j 10 ht
    have hm' : (joyCallback s j).mode_ = Mode.depth_hold := by
      rw [hmode]; simp [h3, h4, h5, h6]
    rw [joyCallback_armed s j harm, hsel] at hm' ⊢
    exact ⟨hm', a1, a2, pre, post, by rw [a3, hpre]⟩

/-- C7 on the surface button pressed while cruising in manual mode: depth-hold mode with
the depth setpoint 10. -/
theorem depth_hold_entry_witness :
    cruising.mode_ ≠ Mode.disarmed ∧
    (Joy.press JOY_BUTTON_SURFACE).button JOY_BUTTON_DISARM = false ∧
    (Joy.press JOY_BUTTON_SURFACE).button JOY_BUTTON_MANUAL = false ∧
    (Joy.press JOY_BUTTON_SURFACE).button JOY_BUTTON_STABILIZE = false ∧
    (Joy.press JOY_BUTTON_SURFACE).axis JOY_AXIS_VERTICAL_TRIM = 0 ∧
    (Joy.press JOY_BUTTON_SURFACE).button JOY_BUTTON_DEPTH_HOLD = false ∧
    (Joy.press JOY_BUTTON_SURFACE).button JOY_BUTTON_SURFACE = true ∧
    (joyCallback cruising (Joy.press JOY_BUTTON_SURFACE)).mode_ = Mode.depth_hold ∧
    (joyCallback cruising (Joy.press JOY_BUTTON_SURFACE)).depth_setpoint_ = 10 :=
  ⟨by decide, by decide, by decide, by decide, press_axis _ _, by decide, by decide,
   ((depth_hold_entry cruising (Joy.press JOY_BUTTON_SURFACE) (by decide) (by decide)
      (by decide) (by decide) (press_axis _ _)).2 (by decide) (by decide)).1,
   ((depth_hold_entry cruising (Joy.press JOY_BUTTON_SURFACE) (by decide) (by decide)
      (by decide) (by decide) (press_axis _ _)).2 (by decide) (by decide)).2.1⟩

/-! ## C8, C9: the command mixer -/

theorem clamp_saturates (v : ℚ) : Saturates v (clamp v (-1) 1) := by
  unfold Saturates clamp
  split_ifs with h1 h2
  · exact ⟨fun h => by linarith [h.2], fun _ => rfl, fun h => by linarith, by norm_num,
      le_refl _⟩
  · exact ⟨fun h => by linarith [h.1], fun h => by linarith, fun _ => rfl, le_refl _,
      by norm_num⟩
  · push_neg at h1 h2
    exact ⟨fun _ => rfl, fun h => by linarith, fun h => by linarith, h2, h1⟩

theorem clamp_of_mem (v : ℚ) (h1 : -1 ≤ v) (h2 : v ≤ 1) : clamp v (-1) 1 = v :=
  (clamp_saturates v).1 ⟨h1, h2⟩

/-- A tick publishes the cached states the closed-loop modes call for and then, last, the
one thruster message. -/
theorem SpinOnce_published (s : OrcaBase) :
    ∃ pre, (SpinOnce s).published = s.published ++ pre ++ [Msg.thruster (thruster_msg s)] ∧
      ∀ m ∈ pre, ∀ e, m ≠ Msg.thruster e := by
  simp only [SpinOnce, OrcaBase.publish]
  split_ifs with h1 h2 h2
  · exact ⟨[Msg.yaw_state s.yaw_state_, Msg.depth_state s.depth_state_], by simp [thruster_msg],
      by simp⟩
  · exact ⟨[Msg.yaw_state s.yaw_state_], by simp [thruster_msg], by simp⟩
  · exact ⟨[Msg.depth_state s.depth_state_], by simp [thruster_msg], by simp⟩
  · exact ⟨[], by simp, by simp⟩

/-- C8. Whatever the four efforts are, the thruster command of a tick has exactly six
channels, mixed in the order f+s+y, f-s-y, f-s+y, f+s-y, v, -v, and each channel obeys the
saturation law: equal to its mixed value inside [-1, 1], exactly 1 above 1, exactly -1
below -1, hence always within [-1, 1].  It is the last message of the tick and the only
thruster message. -/
theorem mixer_clamp_law (s : OrcaBase) :
    ∃ c1 c2 c3 c4 c5 c6 pre,
      (SpinOnce s).published = s.published ++ pre ++ [Msg.thruster [c1, c2, c3, c4, c5, c6]] ∧
      (∀ m ∈ pre, ∀ e, m ≠ Msg.thruster e) ∧
      Saturates (s.forward_effort_ + s.strafe_effort_ + s.yaw_effort_) c1 ∧
      Saturates (s.forward_effort_ - s.strafe_effort_ - s.yaw_effort_) c2 ∧
      Saturates (s.forward_effort_ - s.strafe_effort_ + s.yaw_effort_) c3 ∧
      Saturates (s.forward_effort_ + s.strafe_effort_ - s.yaw_effort_) c4 ∧
      Saturates s.vertical_effort_ c5 ∧
      Saturates (-s.vertical_effort_) c6 := by
  obtain ⟨pre, h1, h2⟩ := SpinOnce_published s
  exact ⟨_, _, _, _, _, _, pre, h1, h2, clamp_saturates _, clamp_saturates _, clamp_saturates _,
    clamp_saturates _, clamp_saturates _, clamp_saturates _⟩

/-- C9. With strafe and yaw efforts 0 and forward effort `f` and vertical effort `v` both
in [-1, 1], the thruster command of the tick is exactly [f, f, f, f, v, -v], published as
the last message of the tick. -/
theorem mixer_pure_axes (s : OrcaBase) (f v : ℚ) (hf1 : -1 ≤ f) (hf2 : f ≤ 1)
    (hv1 : -1 ≤ v) (hv2 : v ≤ 1) :
    thruster_msg { s with forward_effort_ := f, strafe_effort_ := 0, yaw_effort_ := 0,
                          vertical_effort_ := v } = [f, f, f, f, v, -v] ∧
    ∃ pre, (SpinOnce { s with forward_effort_ := f, strafe_effort_ := 0, yaw_effort_ := 0,
                              vertical_effort_ := v }).published =
      s.published ++ pre ++ [Msg.thruster [f, f, f, f, v, -v]] ∧
      ∀ m ∈ pre, ∀ e, m ≠ Msg.thruster e := by
  have e : thruster_msg
      { s with forward_effort_ := f, strafe_effort_ := 0, yaw_effort_ := 0, vertical_effort_ := v }
      = [f, f, f, f, v, -v] := by
    simp only [thruster_msg, add_zero, sub_zero]
    rw [clamp_of_mem f hf1 hf2, clamp_of_mem v hv1 hv2,
      clamp_of_mem (-v) (by linarith) (by linarith)]
  refine ⟨e, ?_⟩
  rw [← e]
  exact SpinOnce_published _

/-- C9 on the two examples of the spec: forward 0.5 with vertical 0, and vertical 0.7. -/
theorem mixer_pure_axes_witness :
    (thruster_msg { boot with forward_effort_ := 1 / 2, strafe_effort_ := 0, yaw_effort_ := 0,
                              vertical_effort_ := 0 }
      = [1 / 2, 1 / 2, 1 / 2, 1 / 2, 0, -0]) ∧
    (thruster_msg { boot with forward_effort_ := 0, strafe_effort_ := 0, yaw_effort_ := 0,
                              vertical_effort_ := 7 / 10 }
      = [0, 0, 0, 0, 7 / 10, -(7 / 10)]) :=
  ⟨(mixer_pure_axes boot (1 / 2) 0 (by norm_num) (by norm_num) (by norm_num) (by norm_num)).1,
   (mixer_pure_axes boot 0 (7 / 10) (by norm_num) (by norm_num) (by norm_num) (by norm_num)).1⟩

/-! ## C10: end-to-end manual drive -/

theorem push_axis_self (a : Nat) (v : ℚ) (h : a < 8) : (Joy.push a v).axis a = v := by
  simp [Joy.axis, Joy.push, Joy.neutral, List.getD_eq_getElem?_getD, h]

theorem push_axis_of_ne (a : Nat) (v : ℚ) (i : Nat) (h : i ≠ a) : (Joy.push a v).axis i = 0 := by
  have e : (Joy.push a v).axis i = Joy.neutral.axis i := by
    simp only [Joy.axis, Joy.push, List.getD_eq_getElem?_getD]
    rw [List.getElem?_set_ne (Ne.symm h)]
  rw [e, neutral_axis]

/-- The camera-tilt block with neither tilt button pressed changes nothing. -/
theorem joy_camera_tilt_idle (s : OrcaBase) (j : Joy)
    (h1 : j.button JOY_CAMERA_TILT_UP = false) (h2 : j.button JOY_CAMERA_TILT_DOWN = false) :
    joy_camera_tilt s j = s := by
  simp only [joy_camera_tilt, h1, h2]
  cases h : s.tilt_trim_button_previous_
  · simp; rw [← h]
  · simp

/-- The lights block with neither lights button pressed changes nothing. -/
theorem joy_lights_idle (s : OrcaBase) (j : Joy)
    (h1 : j.button JOY_LIGHTS_BRIGHT = false) (h2 : j.button JOY_LIGHTS_DIM = false) :
    joy_lights s j = s := by
  simp only [joy_lights, h1, h2]
  cases h : s.lights_trim_button_previous_
  · simp; rw [← h]
  · simp

/-- The yaw-trim block with the trim axis neutral only clears its latch. -/
theorem joy_yaw_trim_neutral (s : OrcaBase) (j : Joy) (ht : j.axis JOY_AXIS_YAW_TRIM = 0) :
    joy_yaw_trim s j = { s with yaw_trim_button_previous_ := false } := by
  simp [joy_yaw_trim, ht]

/-- C10. In manual mode, whatever the previous efforts, one sample with the forward axis at
`a`, 0.05 <= |a| <= 1, every other axis 0 and no button pressed, followed by one tick,
leaves the mode manual, and the tick publishes exactly one message, the thruster command
[a, a, a, a, 0, 0]. -/
theorem manual_drive (s : OrcaBase) (j : Joy) (a : ℚ) (hm : s.mode_ = Mode.manual)
    (ha : 5 / 100 ≤ |a|) (ha1 : |a| ≤ 1) (hb : ∀ i, j.button i = false)
    (hf : j.axis JOY_AXIS_FORWARD = a) (h0 : ∀ i, i ≠ JOY_AXIS_FORWARD → j.axis i = 0) :
    (joyCallback s j).mode_ = Mode.manual ∧
    (SpinOnce (joyCallback s j)).mode_ = Mode.manual ∧
    (joyCallback s j).published = s.published ∧
    (SpinOnce (joyCallback s j)).published =
      s.published ++ [Msg.thruster [a, a, a, a, 0, 0]] := by
  have hne : s.mode_ ≠ Mode.disarmed := by simp [hm]
  have e : joyCallback s j =
      { s with yaw_trim_button_previous_ := false, depth_trim_button_previous_ := false,
               forward_effort_ := a, yaw_effort_ := 0, strafe_effort_ := 0,
               vertical_effort_ := 0 } := by
    rw [joyCallback_no_mode_button s j hne (hb _) (hb _) (hb _) (hb _) (hb _) (hb _),
      joy_yaw_trim_neutral s j (h0 _ (by decide)),
      joy_depth_trim_neutral _ j (h0 _ (by decide)),
      joy_camera_tilt_idle _ j (hb _) (hb _), joy_lights_idle _ j (hb _) (hb _)]
    have d0 : dead_band 0 INPUT_DEAD_BAND = 0 := by simp [dead_band]
    have da : dead_band a INPUT_DEAD_BAND = a := by
      simp only [dead_band, INPUT_DEAD_BAND]
      rw [if_neg (not_lt.mpr ha)]
    simp [joy_thrusters, hm, hf, h0 JOY_AXIS_YAW (by decide), h0 JOY_AXIS_STRAFE (by decide),
      h0 JOY_AXIS_VERTICAL (by decide), d0, da]
  have hab := abs_le.mp ha1
  rw [e]
  refine ⟨hm, ?_, rfl, ?_⟩
  · simp [SpinOnce, OrcaBase.publish, hm]
  · simp [SpinOnce, OrcaBase.publish, hm, thruster_msg, clamp_of_mem a hab.1 hab.2,
      clamp_of_mem 0 (by norm_num) (by norm_num)]

/-- C10 on the example of the spec: forward axis 0.8 while cruising in manual mode. -/
theorem manual_drive_witness :
    cruising.mode_ = Mode.manual ∧ (5 : ℚ) / 100 ≤ |4 / 5| ∧ |(4 : ℚ) / 5| ≤ 1 ∧
    (SpinOnce (joyCallback cruising (Joy.push JOY_AXIS_FORWARD (4 / 5)))).published =
      cruising.published ++ [Msg.thruster [4 / 5, 4 / 5, 4 / 5, 4 / 5, 0, 0]] :=
  ⟨rfl, by norm_num [abs_of_pos], by norm_num [abs_of_pos],
   (manual_drive cruising (Joy.push JOY_AXIS_FORWARD (4 / 5)) (4 / 5) rfl
      (by norm_num [abs_of_pos]) (by norm_num [abs_of_pos]) (push_button _ _)
      (push_axis_self _ _ (by decide)) (push_axis_of_ne _ _)).2.2.2⟩

/-! ## What a held yaw-trim axis does over any number of samples -/

/-- In a closed-loop yaw mode, `n` consecutive samples holding the yaw-trim axis on the
positive side (no arm, disarm or mode-select button) step the yaw setpoint on every other
sample: `(n + 1) / 2` steps (rounded down) from a clear latch, `n / 2` from a set one. -/
theorem hold_yaw_trim_steps (j : Joy)
    (h1 : j.button JOY_BUTTON_DISARM = false) (h2 : j.button JOY_BUTTON_ARM = false)
    (h3 : j.button JOY_BUTTON_MANUAL = false) (h4 : j.button JOY_BUTTON_STABILIZE = false)
    (h5 : j.button JOY_BUTTON_DEPTH_HOLD = false) (h6 : j.button JOY_BUTTON_SURFACE = false)
    (ht : 0 < j.axis JOY_AXIS_YAW_TRIM) (n : Nat) (s : OrcaBase)
    (hm : s.mode_ = Mode.stabilize ∨ s.mode_ = Mode.depth_hold) :
    (hold s j n).yaw_setpoint_ =
      s.yaw_setpoint_ +
        ((if s.yaw_trim_button_previous_ = false then (n + 1) / 2 else n / 2 : Nat) : ℚ)
          * INC_YAW := by
  induction n generalizing s with
  | zero => simp [hold]
  | succ n ih =>
    obtain ⟨m1, y1, l1⟩ := joyCallback_yaw_trim_pos s j hm h1 h2 h3 h4 h5 h6 ht
    have hm1 : (joyCallback s j).mode_ = Mode.stabilize ∨
        (joyCallback s j).mode_ = Mode.depth_hold := by rw [m1]; exact hm
    rw [hold, ih _ hm1, y1, l1]
    cases hl : s.yaw_trim_button_previous_
    · simp only [Bool.not_false, Bool.true_eq_false, if_false, if_true]
      have e : (n + 1 + 1) / 2 = n / 2 + 1 := by omega
      rw [e]; push_cast; ring
    · simp

/-! ## Frame facts for the four efforts -/

/-- A `setMode` to any mode but disarmed keeps the efforts, the actuators, their latches
and the sensor cache. -/
theorem setMode_frame (s : OrcaBase) (m : Mode) (d : ℚ) (hm : m ≠ Mode.disarmed) :
    (setMode s m d).forward_effort_ = s.forward_effort_ ∧
    (setMode s m d).strafe_effort_ = s.strafe_effort_ ∧
    (setMode s m d).yaw_effort_ = s.yaw_effort_ ∧
    (setMode s m d).vertical_effort_ = s.vertical_effort_ ∧
    (setMode s m d).tilt_ = s.tilt_ ∧
    (setMode s m d).tilt_trim_button_previous_ = s.tilt_trim_button_previous_ ∧
    (setMode s m d).lights_ = s.lights_ ∧
    (setMode s m d).lights_trim_button_previous_ = s.lights_trim_button_previous_ ∧
    (setMode s m d).depth_state_ = s.depth_state_ ∧
    (setMode s m d).yaw_state_ = s.yaw_state_ := by
  cases m with
  | disarmed => exact absurd rfl hm
  | manual => rw [setMode_manual_eq]; simp
  | stabilize => rw [setMode_stabilize_eq]; simp
  | depth_hold => rw [setMode_depth_hold_eq]; simp

/-- The arm/disarm block is one of: `setMode(disarmed)`, `setMode(manual)`, nothing. -/
theorem joy_arm_disarm_cases (s : OrcaBase) (j : Joy) :
    (j.button JOY_BUTTON_DISARM = true ∧ joy_arm_disarm s j = setMode s Mode.disarmed 0) ∨
    (j.button JOY_BUTTON_DISARM = false ∧ j.button JOY_BUTTON_ARM = true ∧
      joy_arm_disarm s j = setMode s Mode.manual 0) ∨
    (j.button JOY_BUTTON_DISARM = false ∧ j.button JOY_BUTTON_ARM = false ∧
      joy_arm_disarm s j = s) := by
  cases hd : j.button JOY_BUTTON_DISARM <;> cases ha : j.button JOY_BUTTON_ARM <;>
    simp [joy_arm_disarm, hd, ha]

/-- When the arm/disarm block leaves the node armed, it was `setMode(manual)` or nothing. -/
theorem joy_arm_disarm_of_armed (s : OrcaBase) (j : Joy)
    (h : (joy_arm_disarm s j).mode_ ≠ Mode.disarmed) :
    j.button JOY_BUTTON_DISARM = false ∧
    (joy_arm_disarm s j = setMode s Mode.manual 0 ∨ joy_arm_disarm s j = s) := by
  rcases joy_arm_disarm_cases s j with ⟨-, e⟩ | ⟨hd, -, e⟩ | ⟨hd, -, e⟩
  · rw [e, setMode_mode] at h; exact absurd rfl h
  · exact ⟨hd, Or.inl e⟩
  · exact ⟨hd, Or.inr e⟩

/-- The mode-select block is a `setMode` to a mode other than disarmed, or nothing. -/
theorem joy_select_mode_cases (s : OrcaBase) (j : Joy) :
    (∃ m d, m ≠ Mode.disarmed ∧ joy_select_mode s j = setMode s m d) ∨
      joy_select_mode s j = s := by
  simp only [joy_select_mode]
  split_ifs
  · exact Or.inl ⟨Mode.manual, 0, by decide, rfl⟩
  · exact Or.inl ⟨Mode.stabilize, 0, by decide, rfl⟩
  · exact Or.inl ⟨Mode.depth_hold, _, by decide, rfl⟩
  · exact Or.inl ⟨Mode.depth_hold, 10, by decide, rfl⟩
  · exact Or.inr rfl

/-- The arm/disarm and mode-select blocks of a sample that is not cut short keep the
efforts, the actuators, their latches and the sensor cache. -/
theorem joy_select_mode_frame (s : OrcaBase) (j : Joy)
    (h : (joy_arm_disarm s j).mode_ ≠ Mode.disarmed) :
    (joy_select_mode (joy_arm_disarm s j) j).forward_effort_ = s.forward_effort_ ∧
    (joy_select_mode (joy_arm_disarm s j) j).strafe_effort_ = s.strafe_effort_ ∧
    (joy_select_mode (joy_arm_disarm s j) j).yaw_effort_ = s.yaw_effort_ ∧
    (joy_select_mode (joy_arm_disarm s j) j).vertical_effort_ = s.vertical_effort_ ∧
    (joy_select_mode (joy_arm_disarm s j) j).tilt_ = s.tilt_ ∧
    (joy_select_mode (joy_arm_disarm s j) j).tilt_trim_button_previous_ =
      s.tilt_trim_button_previous_ ∧
    (joy_select_mode (joy_arm_disarm s j) j).lights_ = s.lights_ ∧
    (joy_select_mode (joy_arm_disarm s j) j).lights_trim_button_previous_ =
      s.lights_trim_button_previous_ ∧
    (joy_select_mode (joy_arm_disarm s j) j).depth_state_ = s.depth_state_ ∧
    (joy_select_mode (joy_arm_disarm s j) j).yaw_state_ = s.yaw_state_ := by
  have h1 : (joy_arm_disarm s j).forward_effort_ = s.forward_effort_ ∧
      (joy_arm_disarm s j).strafe_effort_ = s.strafe_effort_ ∧
      (joy_arm_disarm s j).yaw_effort_ = s.yaw_effort_ ∧
      (joy_arm_disarm s j).vertical_effort_ = s.vertical_effort_ ∧
      (joy_arm_disarm s j).tilt_ = s.tilt_ ∧
      (joy_arm_disarm s j).tilt_trim_button_previous_ = s.tilt_trim_button_previous_ ∧
      (joy_arm_disarm s j).lights_ = s.lights_ ∧
      (joy_arm_disarm s j).lights_trim_button_previous_ = s.lights_trim_button_previous_ ∧
      (joy_arm_disarm s j).depth_state_ = s.depth_state_ ∧
      (joy_arm_disarm s j).yaw_state_ = s.yaw_state_ := by
    rcases (joy_arm_disarm_of_armed s j h).2 with e | e
    · rw [e]; exact setMode_frame s Mode.manual 0 (by decide)
    · rw [e]; simp
  rcases joy_select_mode_cases (joy_arm_disarm s j) j with ⟨m, d, hm, e⟩ | e
  · rw [e]
    obtain ⟨a1, a2, a3, a4, a5, a6, a7, a8, a9, a10⟩ := setMode_frame (joy_arm_disarm s j) m d hm
    obtain ⟨b1, b2, b3, b4, b5, b6, b7, b8, b9, b10⟩ := h1
    exact ⟨a1.trans b1, a2.trans b2, a3.trans b3, a4.trans b4, a5.trans b5, a6.trans b6,
      a7.trans b7, a8.trans b8, a9.trans b9, a10.trans b10⟩
  · rw [e]; exact h1

theorem joy_yaw_trim_efforts (s : OrcaBase) (j : Joy) :
    (joy_yaw_trim s j).forward_effort_ = s.forward_effort_ ∧
    (joy_yaw_trim s j).strafe_effort_ = s.strafe_effort_ ∧
    (joy_yaw_trim s j).yaw_effort_ = s.yaw_effort_ ∧
    (joy_yaw_trim s j).vertical_effort_ = s.vertical_effort_ := by
  simp only [joy_yaw_trim, publishYawSetpoint, OrcaBase.publish]
  split_ifs <;> simp

theorem joy_depth_trim_efforts (s : OrcaBase) (j : Joy) :
    (joy_depth_trim s j).forward_effort_ = s.forward_effort_ ∧
    (joy_depth_trim s j).strafe_effort_ = s.strafe_effort_ ∧
    (joy_depth_trim s j).yaw_effort_ = s.yaw_effort_ ∧
    (joy_depth_trim s j).vertical_effort_ = s.vertical_effort_ := by
  simp only [joy_depth_trim, publishDepthSetpoint, OrcaBase.publish]
  split_ifs <;> simp

theorem joy_camera_tilt_efforts (s : OrcaBase) (j : Joy) :
    (joy_camera_tilt s j).forward_effort_ = s.forward_effort_ ∧
    (joy_camera_tilt s j).strafe_effort_ = s.strafe_effort_ ∧
    (joy_camera_tilt s j).yaw_effort_ = s.yaw_effort_ ∧
    (joy_camera_tilt s j).vertical_effort_ = s.vertical_effort_ := by
  simp only [joy_camera_tilt, publishCameraTilt, OrcaBase.publish]
  split_ifs <;> simp

theorem joy_lights_efforts (s : OrcaBase) (j : Joy) :
    (joy_lights s j).forward_effort_ = s.forward_effort_ ∧
    (joy_lights s j).strafe_effort_ = s.strafe_effort_ ∧
    (joy_lights s j).yaw_effort_ = s.yaw_effort_ ∧
    (joy_lights s j).vertical_effort_ = s.vertical_effort_ := by
  simp only [joy_lights, publishLights, OrcaBase.publish]
  split_ifs <;> simp

/-- What the "Respond to thruster controls" block leaves in the four efforts. -/
theorem joy_thrusters_efforts (s : OrcaBase) (j : Joy) :
    (joy_thrusters s j).forward_effort_ = dead_band (j.axis JOY_AXIS_FORWARD) INPUT_DEAD_BAND ∧
    (joy_thrusters s j).strafe_effort_ = dead_band (j.axis JOY_AXIS_STRAFE) INPUT_DEAD_BAND ∧
    (joy_thrusters s j).yaw_effort_ =
      (if s.mode_ = Mode.manual then dead_band (j.axis JOY_AXIS_YAW) INPUT_DEAD_BAND
       else s.yaw_effort_) ∧
    (joy_thrusters s j).vertical_effort_ =
      (if s.mode_ = Mode.manual ∨ s.mode_ = Mode.stabilize then
        dead_band (j.axis JOY_AXIS_VERTICAL) INPUT_DEAD_BAND
       else s.vertical_effort_) := by
  simp only [joy_thrusters]
  split_ifs <;> simp_all

/-- The four efforts after a sample that is not cut short, in terms of the mode `m` left by
its arm and mode-select blocks and of the efforts before the sample. -/
theorem joyCallback_efforts (s : OrcaBase) (j : Joy)
    (h : (joy_arm_disarm s j).mode_ ≠ Mode.disarmed) :
    (joyCallback s j).forward_effort_ = dead_band (j.axis JOY_AXIS_FORWARD) INPUT_DEAD_BAND ∧
    (joyCallback s j).strafe_effort_ = dead_band (j.axis JOY_AXIS_STRAFE) INPUT_DEAD_BAND ∧
    (joyCallback s j).yaw_effort_ =
      (if (joy_select_mode (joy_arm_disarm s j) j).mode_ = Mode.manual then
        dead_band (j.axis JOY_AXIS_YAW) INPUT_DEAD_BAND
       else s.yaw_effort_) ∧
    (joyCallback s j).vertical_effort_ =
      (if (joy_select_mode (joy_arm_disarm s j) j).mode_ = Mode.manual ∨
          (joy_select_mode (joy_arm_disarm s j) j).mode_ = Mode.stabilize then
        dead_band (j.axis JOY_AXIS_VERTICAL) INPUT_DEAD_BAND
       else s.vertical_effort_) := by
  rw [joyCallback_armed s j h]
  obtain ⟨t1, t2, t3, t4⟩ := joy_thrusters_efforts (joy_lights (joy_camera_tilt
    (joy_depth_trim (joy_yaw_trim (joy_select_mode (joy_arm_disarm s j) j) j) j) j) j) j
  rw [t1, t2, t3, t4, joy_lights_mode, joy_camera_tilt_mode, joy_depth_trim_mode,
    joy_yaw_trim_mode, (joy_lights_efforts _ j).2.2.1, (joy_lights_efforts _ j).2.2.2,
    (joy_camera_tilt_efforts _ j).2.2.1, (joy_camera_tilt_efforts _ j).2.2.2,
    (joy_depth_trim_efforts _ j).2.2.1, (joy_depth_trim_efforts _ j).2.2.2,
    (joy_yaw_trim_efforts _ j).2.2.1, (joy_yaw_trim_efforts _ j).2.2.2,
    (joy_select_mode_frame s j h).2.2.1, (joy_select_mode_frame s j h).2.2.2.1]
  exact ⟨rfl, rfl, rfl, rfl⟩

/-- A sample is processed to the end when disarm is released and the node is armed or the
arm button is pressed. -/
theorem joy_arm_disarm_armed_of (s : OrcaBase) (j : Joy)
    (hd : j.button JOY_BUTTON_DISARM = false)
    (h : s.mode_ ≠ Mode.disarmed ∨ j.button JOY_BUTTON_ARM = true) :
    (joy_arm_disarm s j).mode_ ≠ Mode.disarmed := by
  rcases h with h | h
  · exact joy_arm_disarm_armed s j h hd
  · simp [joy_arm_disarm, hd, h, setMode_mode]

/-! ## C11: the input dead-band -/

/-- C11. For a sample that is processed to the end (disarm released, and the node armed or
the arm button pressed) the forward effort after `joyCallback` is exactly 0 when the
forward axis is below 0.05 in magnitude and exactly the axis value when it is at or above
0.05, the boundary included; the strafe effort follows the strafe axis the same way. -/
theorem input_dead_band_cutoff (s : OrcaBase) (j : Joy)
    (hd : j.button JOY_BUTTON_DISARM = false)
    (h : s.mode_ ≠ Mode.disarmed ∨ j.button JOY_BUTTON_ARM = true) :
    (|j.axis JOY_AXIS_FORWARD| < 5 / 100 → (joyCallback s j).forward_effort_ = 0) ∧
    (5 / 100 ≤ |j.axis JOY_AXIS_FORWARD| →
      (joyCallback s j).forward_effort_ = j.axis JOY_AXIS_FORWARD) ∧
    (|j.axis JOY_AXIS_STRAFE| < 5 / 100 → (joyCallback s j).strafe_effort_ = 0) ∧
    (5 / 100 ≤ |j.axis JOY_AXIS_STRAFE| →
      (joyCallback s j).strafe_effort_ = j.axis JOY_AXIS_STRAFE) := by
  obtain ⟨e1, e2, -, -⟩ := joyCallback_efforts s j (joy_arm_disarm_armed_of s j hd h)
  rw [e1, e2]
  simp only [dead_band, INPUT_DEAD_BAND]
  refine ⟨fun h => if_pos h, fun h => if_neg (not_lt.mpr h), fun h => if_pos h,
    fun h => if_neg (not_lt.mpr h)⟩

/-- C11 at the boundary: a forward axis of exactly 0.05 passes through. -/
theorem input_dead_band_cutoff_witness :
    (Joy.push JOY_AXIS_FORWARD (5 / 100)).button JOY_BUTTON_DISARM = false ∧
    cruising.mode_ ≠ Mode.disarmed ∧
    (5 : ℚ) / 100 ≤ |(Joy.push JOY_AXIS_FORWARD (5 / 100)).axis JOY_AXIS_FORWARD| ∧
    (joyCallback cruising (Joy.push JOY_AXIS_FORWARD (5 / 100))).forward_effort_ =
      (Joy.push JOY_AXIS_FORWARD (5 / 100)).axis JOY_AXIS_FORWARD :=
  ⟨push_button _ _ _, by decide,
   by rw [push_axis_self _ _ (by decide)]; norm_num [abs_of_pos],
   (input_dead_band_cutoff cruising (Joy.push JOY_AXIS_FORWARD (5 / 100)) (push_button _ _ _)
      (Or.inl (by decide))).2.1
      (by rw [push_axis_self _ _ (by decide)]; norm_num [abs_of_pos])⟩

/-! ## C12: mode-gated controller feedback -/

/-- C12. `yawControlEffortCallback x` stores the dead-banded `x` (0 below 0.01 in
magnitude, else `x`) in the yaw effort when the mode is stabilize or depth-hold and leaves
the whole state unchanged in manual and disarmed; `depthControlEffortCallback x` stores
the dead-banded `x` in the vertical effort in depth-hold and leaves the whole state
unchanged in every other mode.  No other field, and no traffic, is ever touched. -/
theorem controller_feedback_gated (s : OrcaBase) (x : ℚ) :
    ((s.mode_ = Mode.stabilize ∨ s.mode_ = Mode.depth_hold) →
      yawControlEffortCallback s x =
        { s with yaw_effort_ := if |x| < 1 / 100 then 0 else x }) ∧
    ((s.mode_ = Mode.manual ∨ s.mode_ = Mode.disarmed) →
      yawControlEffortCallback s x = s) ∧
    (s.mode_ = Mode.depth_hold →
      depthControlEffortCallback s x =
        { s with vertical_effort_ := if |x| < 1 / 100 then 0 else x }) ∧
    (s.mode_ ≠ Mode.depth_hold → depthControlEffortCallback s x = s) := by
  refine ⟨fun h => ?_, fun h => ?_, fun h => ?_, fun h => ?_⟩
  · simp only [yawControlEffortCallback, if_pos h, dead_band, EFFORT_DEAD_BAND]
  · have hn : ¬(s.mode_ = Mode.stabilize ∨ s.mode_ = Mode.depth_hold) := by
      rcases h with h | h <;> simp [h]
    simp only [yawControlEffortCallback, if_neg hn]
  · simp only [depthControlEffortCallback, if_pos h, dead_band, EFFORT_DEAD_BAND]
  · simp only [depthControlEffortCallback, if_neg h]

/-- C12 in depth-hold mode: a depth-controller effort of 0.5 becomes the vertical effort,
and in manual mode the same message changes nothing. -/
theorem controller_feedback_gated_witness :
    holding.mode_ = Mode.depth_hold ∧
    depthControlEffortCallback holding (1 / 2) =
      { holding with vertical_effort_ := if |(1 : ℚ) / 2| < 1 / 100 then 0 else 1 / 2 } ∧
    cruising.mode_ ≠ Mode.depth_hold ∧
    depthControlEffortCallback cruising (1 / 2) = cruising :=
  ⟨rfl, (controller_feedback_gated holding (1 / 2)).2.2.1 rfl, by decide,
   (controller_feedback_gated cruising (1 / 2)).2.2.2 (by decide)⟩

/-! ## C13: axis routing by mode -/

/-- C13. For a sample that is processed to the end, let `m` be the mode left by its arm
and mode-select blocks; `m` is not disarmed and is the mode after the sample.  Forward and
strafe efforts are overwritten from the dead-banded axes.  The yaw effort is overwritten
from the dead-banded yaw axis when `m` is manual and otherwise keeps the value it had
before the sample.  The vertical effort is overwritten from the dead-banded vertical axis
when `m` is manual or stabilize and in depth-hold keeps the value it had before the
sample. -/
theorem axis_routing (s : OrcaBase) (j : Joy)
    (hd : j.button JOY_BUTTON_DISARM = false)
    (h : s.mode_ ≠ Mode.disarmed ∨ j.button JOY_BUTTON_ARM = true) :
    (joy_select_mode (joy_arm_disarm s j) j).mode_ ≠ Mode.disarmed ∧
    (joyCallback s j).mode_ = (joy_select_mode (joy_arm_disarm s j) j).mode_ ∧
    (joyCallback s j).forward_effort_ = dead_band (j.axis JOY_AXIS_FORWARD) INPUT_DEAD_BAND ∧
    (joyCallback s j).strafe_effort_ = dead_band (j.axis JOY_AXIS_STRAFE) INPUT_DEAD_BAND ∧
    ((joy_select_mode (joy_arm_disarm s j) j).mode_ = Mode.manual →
      (joyCallback s j).yaw_effort_ = dead_band (j.axis JOY_AXIS_YAW) INPUT_DEAD_BAND) ∧
    ((joy_select_mode (joy_arm_disarm s j) j).mode_ ≠ Mode.manual →
      (joyCallback s j).yaw_effort_ = s.yaw_effort_) ∧
    (((joy_select_mode (joy_arm_disarm s j) j).mode_ = Mode.manual ∨
      (joy_select_mode (joy_arm_disarm s j) j).mode_ = Mode.stabilize) →
      (joyCallback s j).vertical_effort_ =
        dead_band (j.axis JOY_AXIS_VERTICAL) INPUT_DEAD_BAND) ∧
    ((joy_select_mode (joy_arm_disarm s j) j).mode_ = Mode.depth_hold →
      (joyCallback s j).vertical_effort_ = s.vertical_effort_) := by
  have harm := joy_arm_disarm_armed_of s j hd h
  obtain ⟨e1, e2, e3, e4⟩ := joyCallback_efforts s j harm
  have hm : (joy_select_mode (joy_arm_disarm s j) j).mode_ ≠ Mode.disarmed := by
    rw [joy_select_mode_mode]
    split_ifs <;> first | exact harm | decide
  refine ⟨hm, joyCallback_mode_of_armed s j harm, e1, e2, fun hmm => ?_, fun hmm => ?_,
    fun hmm => ?_, fun hmm => ?_⟩
  · rw [e3, if_pos hmm]
  · rw [e3, if_neg hmm]
  · rw [e4, if_pos hmm]
  · rw [e4, if_neg (by rw [hmm]; decide)]

/-- C13 in depth-hold mode with both sticks pushed: the stick does not reach the vertical
effort, which keeps its value. -/
theorem axis_routing_witness :
    (Joy.push JOY_AXIS_VERTICAL 1).button JOY_BUTTON_DISARM = false ∧
    holding.mode_ ≠ Mode.disarmed ∧
    (joy_select_mode (joy_arm_disarm holding (Joy.push JOY_AXIS_VERTICAL 1))
      (Joy.push JOY_AXIS_VERTICAL 1)).mode_ = Mode.depth_hold ∧
    (joyCallback holding (Joy.push JOY_AXIS_VERTICAL 1)).vertical_effort_ =
      holding.vertical_effort_ :=
  ⟨push_button _ _ _, by decide, by decide,
   (axis_routing holding (Joy.push JOY_AXIS_VERTICAL 1) (push_button _ _ _)
      (Or.inl (by decide))).2.2.2.2.2.2.2 (by decide)⟩

/-! ## C14: a disarmed node ignores the gamepad -/

/-- C14. In disarmed mode a sample with neither the arm nor the disarm button pressed
leaves the whole state as it was, traffic included, whatever its mode-select, tilt and
lights buttons, trim axes and stick axes are. -/
theorem disarmed_ignores_input (s : OrcaBase) (j : Joy) (hm : s.mode_ = Mode.disarmed)
    (ha : j.button JOY_BUTTON_ARM = false) (hd : j.button JOY_BUTTON_DISARM = false) :
    joyCallback s j = s := by
  simp [joyCallback, joy_arm_disarm, ha, hd, hm]

/-- C14 on the freshly constructed node with the manual and stabilize buttons pressed. -/
theorem disarmed_ignores_input_witness :
    boot.mode_ = Mode.disarmed ∧ manual_and_stabilize.button JOY_BUTTON_ARM = false ∧
    manual_and_stabilize.button JOY_BUTTON_DISARM = false ∧
    joyCallback boot manual_and_stabilize = boot :=
  ⟨rfl, by decide, by decide,
   disarmed_ignores_input boot manual_and_stabilize rfl (by decide) (by decide)⟩

/-! ## C15: the arm button -/

/-- C15, as stated, fails: in stabilize mode a sample with only the arm button pressed
does not leave the mode unchanged, it ends in manual mode. -/
theorem arm_in_stabilize_changes_mode :
    stabilizing.mode_ = Mode.stabilize ∧
    (joyCallback stabilizing (Joy.press JOY_BUTTON_ARM)).mode_ = Mode.manual ∧
    (joyCallback stabilizing (Joy.press JOY_BUTTON_ARM)).mode_ ≠ stabilizing.mode_ := by
  decide

/-- C15, amended. A sample with the arm button pressed and the disarm button and the four
mode-select buttons released ends in manual mode whatever the mode before: from
disarmed, and from stabilize or depth-hold as well. -/
theorem arm_sets_manual (s : OrcaBase) (j : Joy) (ha : j.button JOY_BUTTON_ARM = true)
    (hd : j.button JOY_BUTTON_DISARM = false) (h3 : j.button JOY_BUTTON_MANUAL = false)
    (h4 : j.button JOY_BUTTON_STABILIZE = false)
    (h5 : j.button JOY_BUTTON_DEPTH_HOLD = false) (h6 : j.button JOY_BUTTON_SURFACE = false) :
    (joyCallback s j).mode_ = Mode.manual := by
  have harm := joy_arm_disarm_armed_of s j hd (Or.inr ha)
  rw [joyCallback_mode_of_armed s j harm, joy_select_mode_mode]
  simp [h3, h4, h5, h6, joy_arm_disarm, hd, ha, setMode_mode]

/-- C15 amended, on the freshly constructed (disarmed) node and on a node in depth-hold. -/
theorem arm_sets_manual_witness :
    (Joy.press JOY_BUTTON_ARM).button JOY_BUTTON_ARM = true ∧
    (joyCallback boot (Joy.press JOY_BUTTON_ARM)).mode_ = Mode.manual ∧
    (joyCallback holding (Joy.press JOY_BUTTON_ARM)).mode_ = Mode.manual :=
  ⟨by decide,
   arm_sets_manual boot (Joy.press JOY_BUTTON_ARM) (by decide) (by decide) (by decide)
     (by decide) (by decide) (by decide),
   arm_sets_manual holding (Joy.press JOY_BUTTON_ARM) (by decide) (by decide) (by decide)
     (by decide) (by decide) (by decide)⟩

/-! ## Controller flags in the traffic -/

/-- Counting the yaw-controller enable (true) messages: `setMode` adds one exactly when the
target is stabilize or depth-hold, whatever the mode before. -/
theorem setMode_count_yaw_enable (s : OrcaBase) (m : Mode) (d : ℚ) :
    (setMode s m d).published.count (Msg.yaw_pid_enable true) =
      s.published.count (Msg.yaw_pid_enable true) +
        (if m = Mode.stabilize ∨ m = Mode.depth_hold then 1 else 0) := by
  cases m with
  | disarmed => rw [setMode_disarmed_eq]; simp [List.count_cons]
  | manual => rw [setMode_manual_eq]; simp [List.count_cons]
  | stabilize => rw [setMode_stabilize_eq]; simp [List.count_cons]
  | depth_hold => rw [setMode_depth_hold_eq]; simp [List.count_cons]

theorem joy_yaw_trim_count (s : OrcaBase) (j : Joy) (m : Msg)
    (hm : ∀ x, m ≠ Msg.yaw_setpoint x) :
    (joy_yaw_trim s j).published.count m = s.published.count m := by
  simp only [joy_yaw_trim, publishYawSetpoint, OrcaBase.publish]
  split_ifs <;> simp [List.count_cons, Ne.symm (hm _)]

theorem joy_depth_trim_count (s : OrcaBase) (j : Joy) (m : Msg)
    (hm : ∀ x, m ≠ Msg.depth_setpoint x) :
    (joy_depth_trim s j).published.count m = s.published.count m := by
  simp only [joy_depth_trim, publishDepthSetpoint, OrcaBase.publish]
  split_ifs <;> simp [List.count_cons, Ne.symm (hm _)]

theorem joy_camera_tilt_count (s : OrcaBase) (j : Joy) (m : Msg)
    (hm : ∀ x, m ≠ Msg.camera_tilt x) :
    (joy_camera_tilt s j).published.count m = s.published.count m := by
  simp only [joy_camera_tilt, publishCameraTilt, OrcaBase.publish]
  split_ifs <;> simp [List.count_cons, Ne.symm (hm _)]

theorem joy_lights_count (s : OrcaBase) (j : Joy) (m : Msg)
    (hm : ∀ x, m ≠ Msg.lights x) :
    (joy_lights s j).published.count m = s.published.count m := by
  simp only [joy_lights, publishLights, OrcaBase.publish]
  split_ifs <;> simp [List.count_cons, Ne.symm (hm _)]

/-- One sample with the stabilize button pressed and the disarm and manual buttons
released, on an armed node: stabilize mode, and one more yaw-controller enable (true). -/
theorem joyCallback_stabilize_count (s : OrcaBase) (j : Joy) (hm : s.mode_ ≠ Mode.disarmed)
    (hd : j.button JOY_BUTTON_DISARM = false) (h3 : j.button JOY_BUTTON_MANUAL = false)
    (h4 : j.button JOY_BUTTON_STABILIZE = true) :
    (joyCallback s j).mode_ = Mode.stabilize ∧
    (joyCallback s j).published.count (Msg.yaw_pid_enable true) =
      s.published.count (Msg.yaw_pid_enable true) + 1 := by
  have harm := joy_arm_disarm_armed s j hm hd
  have hsel : joy_select_mode (joy_arm_disarm s j) j =
      setMode (joy_arm_disarm s j) Mode.stabilize 0 := by
    simp [joy_select_mode, h3, h4]
  have h1 : (joy_arm_disarm s j).published.count (Msg.yaw_pid_enable true) =
      s.published.count (Msg.yaw_pid_enable true) := by
    rcases (joy_arm_disarm_of_armed s j harm).2 with e | e
    · rw [e, setMode_count_yaw_enable]; simp
    · rw [e]
  constructor
  · rw [joyCallback_mode_of_armed s j harm, hsel, setMode_mode]
  · rw [joyCallback_armed s j harm, (joy_thrusters_frame _ j).2.2.2.2.2.2.2.2,
      joy_lights_count _ j _ (by simp), joy_camera_tilt_count _ j _ (by simp),
      joy_depth_trim_count _ j _ (by simp), joy_yaw_trim_count _ j _ (by simp), hsel,
      setMode_count_yaw_enable, h1]
    simp

/-- Over `n` samples with the stabilize button held the yaw-controller enable (true) is
published `n` times. -/
theorem hold_stabilize_count (j : Joy)
    (hd : j.button JOY_BUTTON_DISARM = false) (h3 : j.button JOY_BUTTON_MANUAL = false)
    (h4 : j.button JOY_BUTTON_STABILIZE = true) (n : Nat) (s : OrcaBase)
    (hm : s.mode_ ≠ Mode.disarmed) :
    (hold s j n).published.count (Msg.yaw_pid_enable true) =
      s.published.count (Msg.yaw_pid_enable true) + n := by
  induction n generalizing s with
  | zero => simp [hold]
  | succ n ih =>
    obtain ⟨m1, c1⟩ := joyCallback_stabilize_count s j hm hd h3 h4
    rw [hold, ih _ (by rw [m1]; decide), c1]
    ring

/-! ## C16: controller enables and repeated `setMode` calls -/

/-- C16, as stated, fails: a `setMode` to the mode the node is already in publishes both
controller flags again, and two consecutive samples with only the stabilize button held,
starting in manual mode, publish the yaw-controller enable (true) twice, not once. -/
theorem setMode_same_mode_publishes :
    stabilizing.mode_ = Mode.stabilize ∧
    (setMode stabilizing Mode.stabilize 0).published =
      stabilizing.published ++
        [Msg.depth_pid_enable false, Msg.yaw_pid_enable true, Msg.yaw_setpoint 0] ∧
    cruising.mode_ = Mode.manual ∧
    cruising.published.count (Msg.yaw_pid_enable true) = 0 ∧
    (hold cruising (Joy.press JOY_BUTTON_STABILIZE) 2).published.count
      (Msg.yaw_pid_enable true) = 2 := by
  refine ⟨rfl, ?_, rfl, by decide, ?_⟩
  · rw [setMode_stabilize_eq]; rfl
  · rw [hold_stabilize_count (Joy.press JOY_BUTTON_STABILIZE) (by decide) (by decide)
      (by decide) 2 cruising (by decide)]
    decide

/-- C16, amended. Controller flags are published by every `setMode` call, also when the
target is the mode the node is already in: on an armed node, `n` consecutive samples
with the stabilize button held (disarm and manual released) publish exactly `n`
yaw-controller enable (true) messages, one per sample. -/
theorem stabilize_held_enables_every_sample (s : OrcaBase) (j : Joy) (n : Nat)
    (hm : s.mode_ ≠ Mode.disarmed) (hd : j.button JOY_BUTTON_DISARM = false)
    (h3 : j.button JOY_BUTTON_MANUAL = false) (h4 : j.button JOY_BUTTON_STABILIZE = true) :
    (hold s j n).published.count (Msg.yaw_pid_enable true) =
      s.published.count (Msg.yaw_pid_enable true) + n ∧
    (setMode s s.mode_ 0).published.count (Msg.yaw_pid_enable true) =
      s.published.count (Msg.yaw_pid_enable true) +
        (if s.mode_ = Mode.stabilize ∨ s.mode_ = Mode.depth_hold then 1 else 0) :=
  ⟨hold_stabilize_count j hd h3 h4 n s hm, setMode_count_yaw_enable s s.mode_ 0⟩

/-- C16 amended, on three samples with the stabilize button held while cruising in manual
mode: three enables. -/
theorem stabilize_held_enables_every_sample_witness :
    cruising.mode_ ≠ Mode.disarmed ∧
    (Joy.press JOY_BUTTON_STABILIZE).button JOY_BUTTON_STABILIZE = true ∧
    (hold cruising (Joy.press JOY_BUTTON_STABILIZE) 3).published.count
      (Msg.yaw_pid_enable true) = cruising.published.count (Msg.yaw_pid_enable true) + 3 :=
  ⟨by decide, by decide,
   (stabilize_held_enables_every_sample cruising (Joy.press JOY_BUTTON_STABILIZE) 3 (by decide)
      (by decide) (by decide) (by decide)).1⟩

/-! ## C19: enable flags published by `setMode` -/

/-- C19. Every `setMode` call to a mode `b`, in particular every call that changes the
mode, stores `b` and publishes exactly one depth-controller flag, true exactly when `b`
is depth-hold, and exactly one yaw-controller flag, true exactly when `b` is stabilize
or depth-hold.  So leaving depth-hold publishes depth enable false, and going to manual
or disarmed publishes yaw enable false. -/
theorem setMode_enable_flags (s : OrcaBase) (b : Mode) (d : ℚ) :
    (setMode s b d).mode_ = b ∧
    ∃ new, (setMode s b d).published = s.published ++ new ∧
      depth_pid_enable_flags new = [decide (b = Mode.depth_hold)] ∧
      yaw_pid_enable_flags new = [decide (b = Mode.stabilize ∨ b = Mode.depth_hold)] := by
  refine ⟨setMode_mode s b d, ?_⟩
  cases b with
  | disarmed =>
    rw [setMode_disarmed_eq]
    exact ⟨_, rfl, rfl, rfl⟩
  | manual =>
    rw [setMode_manual_eq]
    exact ⟨_, rfl, rfl, rfl⟩
  | stabilize =>
    rw [setMode_stabilize_eq]
    exact ⟨_, rfl, rfl, rfl⟩
  | depth_hold =>
    rw [setMode_depth_hold_eq]
    exact ⟨_, rfl, rfl, rfl⟩

/-! ## C20: a held stabilize button -/

/-- C20. On an armed node, after a sample with the stabilize button pressed and the
disarm and manual buttons released, the yaw setpoint is the cached yaw state if the
yaw-trim axis is 0, one step of 3.14159/36 above it if the axis is positive and one step
below it if the axis is negative, whatever the yaw setpoint and the yaw-trim latch were
before the sample. -/
theorem stabilize_resnapshot (s : OrcaBase) (j : Joy) (hm : s.mode_ ≠ Mode.disarmed)
    (hd : j.button JOY_BUTTON_DISARM = false) (h3 : j.button JOY_BUTTON_MANUAL = false)
    (h4 : j.button JOY_BUTTON_STABILIZE = true) :
    (j.axis JOY_AXIS_YAW_TRIM = 0 → (joyCallback s j).yaw_setpoint_ = s.yaw_state_) ∧
    (0 < j.axis JOY_AXIS_YAW_TRIM →
      (joyCallback s j).yaw_setpoint_ = s.yaw_state_ + 314159 / 100000 / 36) ∧
    (j.axis JOY_AXIS_YAW_TRIM < 0 →
      (joyCallback s j).yaw_setpoint_ = s.yaw_state_ - 314159 / 100000 / 36) := by
  have harm := joy_arm_disarm_armed s j hm hd
  have hsel : joy_select_mode (joy_arm_disarm s j) j =
      setMode (joy_arm_disarm s j) Mode.stabilize 0 := by
    simp [joy_select_mode, h3, h4]
  have hy : (joy_arm_disarm s j).yaw_state_ = s.yaw_state_ := by
    have := (joy_select_mode_frame s j harm).2.2.2.2.2.2.2.2.2
    rw [hsel, (setMode_frame _ Mode.stabilize 0 (by decide)).2.2.2.2.2.2.2.2.2] at this
    exact this
  rw [joyCallback_armed s j harm, (after_yaw_trim _ j).1, hsel, setMode_stabilize_eq, hy]
  refine ⟨fun h => ?_, fun h => ?_, fun h => ?_⟩
  · simp [joy_yaw_trim, h]
  · simp [joy_yaw_trim, h, h.ne', publishYawSetpoint, OrcaBase.publish, INC_YAW, PI]
  · simp [joy_yaw_trim, h.ne, not_lt.mpr h.le, publishYawSetpoint, OrcaBase.publish, INC_YAW,
      PI]

/-- C20 on a node in depth-hold with a stale setpoint and a set latch: stabilize pressed
with the trim axis neutral gives the cached yaw back. -/
theorem stabilize_resnapshot_witness :
    holding.mode_ ≠ Mode.disarmed ∧
    (Joy.press JOY_BUTTON_STABILIZE).button JOY_BUTTON_STABILIZE = true ∧
    (Joy.press JOY_BUTTON_STABILIZE).axis JOY_AXIS_YAW_TRIM = 0 ∧
    (joyCallback { holding with yaw_state_ := 1, yaw_setpoint_ := 3,
                                yaw_trim_button_previous_ := true }
      (Joy.press JOY_BUTTON_STABILIZE)).yaw_setpoint_ = 1 :=
  ⟨by decide, by decide, press_axis _ _,
   (stabilize_resnapshot { holding with yaw_state_ := 1, yaw_setpoint_ := 3,
                                        yaw_trim_button_previous_ := true }
      (Joy.press JOY_BUTTON_STABILIZE) (by decide) (by decide) (by decide) (by decide)).1
      (press_axis _ _)⟩

/-! ## C17: actuator ranges -/

theorem clamp_mem (v lo hi : ℚ) (h : lo ≤ hi) : lo ≤ clamp v lo hi ∧ clamp v lo hi ≤ hi := by
  unfold clamp
  split_ifs with h1 h2
  · exact ⟨h, le_refl _⟩
  · exact ⟨le_refl _, h⟩
  · exact ⟨not_lt.mp h2, not_lt.mp h1⟩

/-- Appending unconstrained or in-range messages and keeping tilt and lights keeps the
ranges. -/
theorem ActuatorsInRange_of_append (s t : OrcaBase) (new : List Msg)
    (hs : ActuatorsInRange s) (h1 : t.tilt_ = s.tilt_) (h2 : t.lights_ = s.lights_)
    (h3 : t.published = s.published ++ new) (h4 : ∀ m ∈ new, m.InRange) :
    ActuatorsInRange t := by
  obtain ⟨a, b, c, d, e⟩ := hs
  refine ⟨h1 ▸ a, h1 ▸ b, h2 ▸ c, h2 ▸ d, fun m hm => ?_⟩
  rw [h3, List.mem_append] at hm
  rcases hm with hm | hm
  · exact e m hm
  · exact h4 m hm

theorem ActuatorsInRange_publish (s : OrcaBase) (m : Msg) (hs : ActuatorsInRange s)
    (hm : m.InRange) : ActuatorsInRange (s.publish m) :=
  ActuatorsInRange_of_append s _ [m] hs rfl rfl rfl (by simpa using hm)

theorem ActuatorsInRange_setMode (s : OrcaBase) (m : Mode) (d : ℚ)
    (hs : ActuatorsInRange s) : ActuatorsInRange (setMode s m d) := by
  cases m with
  | disarmed =>
    rw [setMode_disarmed_eq]
    exact ActuatorsInRange_of_append s _ _ hs rfl rfl rfl (by simp [Msg.InRange])
  | manual =>
    rw [setMode_manual_eq]
    exact ActuatorsInRange_of_append s _ _ hs rfl rfl rfl (by simp [Msg.InRange])
  | stabilize =>
    rw [setMode_stabilize_eq]
    exact ActuatorsInRange_of_append s _ _ hs rfl rfl rfl (by simp [Msg.InRange])
  | depth_hold =>
    rw [setMode_depth_hold_eq]
    exact ActuatorsInRange_of_append s _ _ hs rfl rfl rfl (by simp [Msg.InRange])

theorem ActuatorsInRange_joy_arm_disarm (s : OrcaBase) (j : Joy) (hs : ActuatorsInRange s) :
    ActuatorsInRange (joy_arm_disarm s j) := by
  rcases joy_arm_disarm_cases s j with ⟨-, e⟩ | ⟨-, -, e⟩ | ⟨-, -, e⟩
  · rw [e]; exact ActuatorsInRange_setMode s _ _ hs
  · rw [e]; exact ActuatorsInRange_setMode s _ _ hs
  · rw [e]; exact hs

theorem ActuatorsInRange_joy_select_mode (s : OrcaBase) (j : Joy)
    (hs : ActuatorsInRange s) : ActuatorsInRange (joy_select_mode s j) := by
  rcases joy_select_mode_cases s j with ⟨m, d, -, e⟩ | e
  · rw [e]; exact ActuatorsInRange_setMode s _ _ hs
  · rw [e]; exact hs

theorem ActuatorsInRange_joy_yaw_trim (s : OrcaBase) (j : Joy) (hs : ActuatorsInRange s) :
    ActuatorsInRange (joy_yaw_trim s j) := by
  simp only [joy_yaw_trim, publishYawSetpoint, OrcaBase.publish]
  split_ifs
  all_goals first
    | exact ActuatorsInRange_of_append s _ _ hs rfl rfl rfl (by simp [Msg.InRange])
    | exact ActuatorsInRange_of_append s _ [] hs rfl rfl (by simp) (by simp)

theorem ActuatorsInRange_joy_depth_trim (s : OrcaBase) (j : Joy) (hs : ActuatorsInRange s) :
    ActuatorsInRange (joy_depth_trim s j) := by
  simp only [joy_depth_trim, publishDepthSetpoint, OrcaBase.publish]
  split_ifs
  all_goals first
    | exact ActuatorsInRange_of_append s _ _ hs rfl rfl rfl (by simp [Msg.InRange])
    | exact ActuatorsInRange_of_append s _ [] hs rfl rfl (by simp) (by simp)

theorem ActuatorsInRange_joy_camera_tilt (s : OrcaBase) (j : Joy) (hs : ActuatorsInRange s) :
    ActuatorsInRange (joy_camera_tilt s j) := by
  obtain ⟨a, b, c, d, e⟩ := hs
  have hup := clamp_mem (s.tilt_ + INC_TILT) (-1) 1 (by norm_num)
  have hdn := clamp_mem (s.tilt_ - INC_TILT) (-1) 1 (by norm_num)
  simp only [joy_camera_tilt, publishCameraTilt, OrcaBase.publish]
  split_ifs
  · refine ⟨hup.1, hup.2, c, d, fun m hm => ?_⟩
    rcases List.mem_append.mp hm with hm | hm
    · exact e m hm
    · rw [List.mem_singleton.mp hm]; exact hup
  · refine ⟨hdn.1, hdn.2, c, d, fun m hm => ?_⟩
    rcases List.mem_append.mp hm with hm | hm
    · exact e m hm
    · rw [List.mem_singleton.mp hm]; exact hdn
  · exact ⟨a, b, c, d, e⟩
  · exact ⟨a, b, c, d, e⟩

theorem ActuatorsInRange_joy_lights (s : OrcaBase) (j : Joy) (hs : ActuatorsInRange s) :
    ActuatorsInRange (joy_lights s j) := by
  obtain ⟨a, b, c, d, e⟩ := hs
  have hup := clamp_mem (s.lights_ + INC_LIGHTS) 0 1 (by norm_num)
  have hdn := clamp_mem (s.lights_ - INC_LIGHTS) 0 1 (by norm_num)
  simp only [joy_lights, publishLights, OrcaBase.publish]
  split_ifs
  · refine ⟨a, b, hup.1, hup.2, fun m hm => ?_⟩
    rcases List.mem_append.mp hm with hm | hm
    · exact e m hm
    · rw [List.mem_singleton.mp hm]; exact hup
  · refine ⟨a, b, hdn.1, hdn.2, fun m hm => ?_⟩
    rcases List.mem_append.mp hm with hm | hm
    · exact e m hm
    · rw [List.mem_singleton.mp hm]; exact hdn
  · exact ⟨a, b, c, d, e⟩
  · exact ⟨a, b, c, d, e⟩

theorem ActuatorsInRange_joy_thrusters (s : OrcaBase) (j : Joy) (hs : ActuatorsInRange s) :
    ActuatorsInRange (joy_thrusters s j) := by
  obtain ⟨-, -, -, -, t5, -, t7, -, tp⟩ := joy_thrusters_frame s j
  exact ActuatorsInRange_of_append s _ [] hs t5 t7 (by simp [tp]) (by simp)

theorem ActuatorsInRange_joyCallback (s : OrcaBase) (j : Joy) (hs : ActuatorsInRange s) :
    ActuatorsInRange (joyCallback s j) := by
  have h1 := ActuatorsInRange_joy_arm_disarm s j hs
  simp only [joyCallback]
  split_ifs
  · exact h1
  · exact ActuatorsInRange_joy_thrusters _ j (ActuatorsInRange_joy_lights _ j
      (ActuatorsInRange_joy_camera_tilt _ j (ActuatorsInRange_joy_depth_trim _ j
        (ActuatorsInRange_joy_yaw_trim _ j (ActuatorsInRange_joy_select_mode _ j h1)))))

theorem ActuatorsInRange_step (s : OrcaBase) (e : Event) (hs : ActuatorsInRange s) :
    ActuatorsInRange (step s e) := by
  cases e with
  | baro depth => exact hs
  | imu yaw => exact hs
  | joy joy_msg => exact ActuatorsInRange_joyCallback s joy_msg hs
  | yaw_control_effort data =>
    simp only [step, yawControlEffortCallback]
    split_ifs
    · exact hs
    · exact hs
  | depth_control_effort data =>
    simp only [step, depthControlEffortCallback]
    split_ifs
    · exact hs
    · exact hs
  | spin =>
    simp only [step, SpinOnce]
    apply ActuatorsInRange_publish _ _ _ (by simp [Msg.InRange])
    split_ifs
    all_goals repeat first
      | exact hs
      | apply ActuatorsInRange_publish _ _ _ (by simp [Msg.InRange])

theorem ActuatorsInRange_run (events : List Event) (s : OrcaBase) (hs : ActuatorsInRange s) :
    ActuatorsInRange (run s events) := by
  induction events generalizing s with
  | nil => exact hs
  | cons e es ih => exact ih (step s e) (ActuatorsInRange_step s e hs)

/-- Camera tilt and lights after any sample that is not cut short are what their own
blocks compute from the state before the sample. -/
theorem joyCallback_actuators (s : OrcaBase) (j : Joy)
    (h : (joy_arm_disarm s j).mode_ ≠ Mode.disarmed) :
    (joyCallback s j).tilt_ = (joy_camera_tilt s j).tilt_ ∧
    (joyCallback s j).lights_ = (joy_lights s j).lights_ := by
  rw [joyCallback_armed s j h]
  obtain ⟨-, -, -, -, x3, x4, x5, x6, -, -⟩ := joy_select_mode_frame s j h
  obtain ⟨-, -, y3, y4, y5, y6⟩ := joy_yaw_trim_frame (joy_select_mode (joy_arm_disarm s j) j) j
  obtain ⟨-, -, d3, d4, d5, d6⟩ :=
    joy_depth_trim_frame (joy_yaw_trim (joy_select_mode (joy_arm_disarm s j) j) j) j
  obtain ⟨-, -, -, -, c5, c6⟩ := joy_camera_tilt_frame
    (joy_depth_trim (joy_yaw_trim (joy_select_mode (joy_arm_disarm s j) j) j) j) j
  obtain ⟨-, -, -, -, l5, -⟩ := joy_lights_frame (joy_camera_tilt
    (joy_depth_trim (joy_yaw_trim (joy_select_mode (joy_arm_disarm s j) j) j) j) j) j
  obtain ⟨-, -, -, -, t5, -, t7, -, -⟩ := joy_thrusters_frame (joy_lights (joy_camera_tilt
    (joy_depth_trim (joy_yaw_trim (joy_select_mode (joy_arm_disarm s j) j) j) j) j) j) j
  constructor
  · rw [t5, l5]
    simp only [joy_camera_tilt, publishCameraTilt, OrcaBase.publish, d3, d4, y3, y4, x3, x4]
    split_ifs <;> simp [d3, y3, x3]
  · rw [t7]
    simp only [joy_lights, publishLights, OrcaBase.publish, c5, c6, d5, d6, y5, y6, x5, x6]
    split_ifs <;> simp [c5, d5, y5, x5]

/-- Camera tilt and lights after a sample that is cut short are untouched. -/
theorem joyCallback_cut_short_actuators (s : OrcaBase) (j : Joy)
    (h : (joy_arm_disarm s j).mode_ = Mode.disarmed) :
    (joyCallback s j).tilt_ = s.tilt_ ∧ (joyCallback s j).lights_ = s.lights_ := by
  have e : joyCallback s j = joy_arm_disarm s j := by simp [joyCallback, h]
  rw [e]
  rcases joy_arm_disarm_cases s j with ⟨-, e⟩ | ⟨-, -, e⟩ | ⟨-, -, e⟩
  · rw [e, setMode_disarmed_eq]; exact ⟨rfl, rfl⟩
  · rw [e, setMode_manual_eq]; exact ⟨rfl, rfl⟩
  · rw [e]; exact ⟨rfl, rfl⟩

/-- C17. In every state reached from the constructed node by gamepad samples, sensor and
feedback messages and ticks, the camera tilt is in [-1, 1], the lights brightness is in
[0, 1], and every camera-tilt and lights command in the traffic carries a value in its
range.  In any state, a sample with the tilt-up button pressed at tilt 1 leaves the tilt
at exactly 1, and a sample with the dim button pressed (bright released) at brightness 0
leaves the brightness at exactly 0. -/
theorem actuator_ranges :
    (∀ s, Reachable s →
      -1 ≤ s.tilt_ ∧ s.tilt_ ≤ 1 ∧ 0 ≤ s.lights_ ∧ s.lights_ ≤ 1 ∧
      (∀ t, Msg.camera_tilt t ∈ s.published → -1 ≤ t ∧ t ≤ 1) ∧
      (∀ b, Msg.lights b ∈ s.published → 0 ≤ b ∧ b ≤ 1)) ∧
    (∀ s j, s.tilt_ = 1 → j.button JOY_CAMERA_TILT_UP = true →
      (joyCallback s j).tilt_ = 1) ∧
    (∀ s j, s.lights_ = 0 → j.button JOY_LIGHTS_DIM = true →
      j.button JOY_LIGHTS_BRIGHT = false → (joyCallback s j).lights_ = 0) := by
  refine ⟨?_, ?_, ?_⟩
  · rintro s ⟨ds, dsp, ys, ysp, dl, yl, events, rfl⟩
    have h0 : ActuatorsInRange (OrcaBase.init ds dsp ys ysp dl yl) := by
      simp [ActuatorsInRange, OrcaBase.init]
    obtain ⟨a, b, c, d, e⟩ := ActuatorsInRange_run events _ h0
    exact ⟨a, b, c, d, fun t ht => e _ ht, fun b hb => e _ hb⟩
  · intro s j ht hup
    by_cases h : (joy_arm_disarm s j).mode_ = Mode.disarmed
    · rw [(joyCallback_cut_short_actuators s j h).1, ht]
    · rw [(joyCallback_actuators s j h).1]
      cases hlat : s.tilt_trim_button_previous_
      · simp [joy_camera_tilt, hlat, hup, publishCameraTilt, OrcaBase.publish, ht, clamp,
          INC_TILT]
      · simp [joy_camera_tilt, hlat, ht]
  · intro s j hl hdim hbr
    by_cases h : (joy_arm_disarm s j).mode_ = Mode.disarmed
    · rw [(joyCallback_cut_short_actuators s j h).2, hl]
    · rw [(joyCallback_actuators s j h).2]
      cases hlat : s.lights_trim_button_previous_
      · simp [joy_lights, hlat, hdim, hbr, publishLights, OrcaBase.publish, hl, clamp,
          INC_LIGHTS]
        norm_num
      · simp [joy_lights, hlat, hl]

/-- C17 on the sample mission and at the two end stops: the mission ends with tilt and
lights in range, tilt-up at tilt 1 stays at 1, dim at brightness 0 stays at 0. -/
theorem actuator_ranges_witness :
    Reachable (run boot mission) ∧
    (-1 ≤ (run boot mission).tilt_ ∧ (run boot mission).tilt_ ≤ 1) ∧
    tilted_up.tilt_ = 1 ∧ (Joy.press JOY_CAMERA_TILT_UP).button JOY_CAMERA_TILT_UP = true ∧
    (joyCallback tilted_up (Joy.press JOY_CAMERA_TILT_UP)).tilt_ = 1 ∧
    tilted_up.lights_ = 0 ∧ (Joy.press JOY_LIGHTS_DIM).button JOY_LIGHTS_DIM = true ∧
    (Joy.press JOY_LIGHTS_DIM).button JOY_LIGHTS_BRIGHT = false ∧
    (joyCallback tilted_up (Joy.press JOY_LIGHTS_DIM)).lights_ = 0 :=
  ⟨⟨0, 0, 0, 0, false, false, mission, rfl⟩,
   ⟨(actuator_ranges.1 _ ⟨0, 0, 0, 0, false, false, mission, rfl⟩).1,
    (actuator_ranges.1 _ ⟨0, 0, 0, 0, false, false, mission, rfl⟩).2.1⟩,
   rfl, by decide,
   actuator_ranges.2.1 tilted_up (Joy.press JOY_CAMERA_TILT_UP) rfl (by decide),
   rfl, by decide, by decide,
   actuator_ranges.2.2 tilted_up (Joy.press JOY_LIGHTS_DIM) rfl (by decide) (by decide)⟩

/-! ## C18: the odometry velocity estimate -/

/-- The `sqrt` argument of `publishOdom` is `2 * 14 * e / (105.6 * 0.0859 * 0.9)` for the
strafe effort `e` (x) and for the forward effort `e` (y). -/
theorem sqrt_arg_formula (s : OrcaBase) :
    linear_x_sqrt_arg s = 2 * 14 * s.strafe_effort_ / (1056 / 10 * (859 / 10000) * (9 / 10)) ∧
    linear_y_sqrt_arg s = 2 * 14 * s.forward_effort_ / (1056 / 10 * (859 / 10000) * (9 / 10)) := by
  simp only [linear_x_sqrt_arg, linear_y_sqrt_arg, thrust_force_x, thrust_force_y,
    MAX_THRUST_XY, SIGMA, ROV_AREA, ROV_DRAG_COEF]
  constructor <;> ring

/-- Every non-negative argument has a `sqrt`. -/
theorem IsSqrt_exists (x : ℚ) (hx : 0 ≤ x) : ∃ r, IsSqrt x r :=
  ⟨Real.sqrt x, hx, Real.sqrt_nonneg _, Real.mul_self_sqrt (by exact_mod_cast hx)⟩

/-- A negative argument has none. -/
theorem IsSqrt_neg (x : ℚ) (hx : x < 0) : ¬∃ r, IsSqrt x r := by
  rintro ⟨r, h0, -, -⟩
  exact absurd hx (not_lt.mpr h0)

/-- On non-negative arguments `sqrt` is monotone. -/
theorem IsSqrt_mono (x y : ℚ) (r t : ℝ) (hxy : x ≤ y) (hr : IsSqrt x r) (ht : IsSqrt y t) :
    r ≤ t := by
  obtain ⟨-, r0, rr⟩ := hr
  obtain ⟨-, t0, tt⟩ := ht
  have h : (x : ℝ) ≤ (y : ℝ) := by exact_mod_cast hxy
  by_contra hc
  push_neg at hc
  nlinarith

/-- What does hold of the estimate: it is 0 at effort 0, and on efforts that are not
negative it exists and does not decrease with the effort. -/
theorem odom_velocity_nonneg_efforts (s t : OrcaBase) :
    (s.strafe_effort_ = 0 → twist_linear_x s 0) ∧
    (0 ≤ s.strafe_effort_ → ∃ r, twist_linear_x s r) ∧
    (0 ≤ s.strafe_effort_ → s.strafe_effort_ ≤ t.strafe_effort_ →
      ∀ r u, twist_linear_x s r → twist_linear_x t u → r ≤ u) := by
  have hx : ∀ a : OrcaBase, linear_x_sqrt_arg a = a.strafe_effort_ * (28 / (1056 / 10 * (859 / 10000) * (9 / 10))) := by
    intro a
    rw [(sqrt_arg_formula a).1]; ring
  refine ⟨fun h => ?_, fun h => ?_, fun _ h r u hr hu => ?_⟩
  · simp [twist_linear_x, IsSqrt, hx, h]
  · exact IsSqrt_exists _ (by rw [hx]; positivity)
  · refine IsSqrt_mono _ _ r u ?_ hr hu
    rw [hx, hx]
    exact mul_le_mul_of_nonneg_right h (by norm_num)

/-- C18. The code at the failing input: with the strafe effort at -1 the argument that
`publishOdom` hands to `sqrt` for `linear.x` is negative, so there is no numeric velocity
estimate at all (the result is NaN), while the effort 0.5, smaller in magnitude, has a
positive estimate; the same for `linear.y` and the forward effort. -/
theorem odom_negative_effort_has_no_estimate :
    linear_x_sqrt_arg { boot with strafe_effort_ := -1 } < 0 ∧
    (¬∃ r, twist_linear_x { boot with strafe_effort_ := -1 } r) ∧
    (∃ r, twist_linear_x { boot with strafe_effort_ := 1 / 2 } r ∧ 0 < r) ∧
    linear_y_sqrt_arg { boot with forward_effort_ := -1 } < 0 ∧
    (¬∃ r, twist_linear_y { boot with forward_effort_ := -1 } r) ∧
    (∃ r, twist_linear_y { boot with forward_effort_ := 1 / 2 } r ∧ 0 < r) := by
  have hx : linear_x_sqrt_arg { boot with strafe_effort_ := -1 } < 0 := by
    rw [(sqrt_arg_formula _).1]; norm_num
  have hy : linear_y_sqrt_arg { boot with forward_effort_ := -1 } < 0 := by
    rw [(sqrt_arg_formula _).2]; norm_num
  have px : 0 < linear_x_sqrt_arg { boot with strafe_effort_ := 1 / 2 } := by
    rw [(sqrt_arg_formula _).1]; norm_num
  have py : 0 < linear_y_sqrt_arg { boot with forward_effort_ := 1 / 2 } := by
    rw [(sqrt_arg_formula _).2]; norm_num
  refine ⟨hx, IsSqrt_neg _ hx, ?_, hy, IsSqrt_neg _ hy, ?_⟩
  · obtain ⟨r, hr⟩ := IsSqrt_exists _ px.le
    refine ⟨r, hr, lt_of_le_of_ne hr.2.1 (fun h0 => ?_)⟩
    have := hr.2.2
    rw [← h0] at this
    have hp : (0 : ℝ) < ((linear_x_sqrt_arg { boot with strafe_effort_ := 1 / 2 } : ℚ) : ℝ) := by
      exact_mod_cast px
    linarith
  · obtain ⟨r, hr⟩ := IsSqrt_exists _ py.le
    refine ⟨r, hr, lt_of_le_of_ne hr.2.1 (fun h0 => ?_)⟩
    have := hr.2.2
    rw [← h0] at this
    have hp : (0 : ℝ) < ((linear_y_sqrt_arg { boot with forward_effort_ := 1 / 2 } : ℚ) : ℝ) := by
      exact_mod_cast py
    linarith

end orca_base
